import Mathlib

/-!
Verification development for the tauri-plugin-mcp command core.

This file gives a shallow embedding of the command dispatcher
(`src/tools/mod.rs`), the response envelope and error taxonomy
(`src/error.rs`), and the command handlers present under `src/tools/`
(console logs, error tracker, network inspector, performance, state dump,
devtools bridge, storage inspector, hot reload, health check), together
with theorems settling the specification claims about them.

Modelling conventions:
- JSON values (`serde_json::Value`) are modelled by the inductive `Json`
  below; JSON numbers are modelled as integers (no handler decision in the
  embedded code depends on float values).
- The Tauri runtime is modelled by an `Env` record: the window registry is
  the list of existing window labels, `emitOk` says whether an emit to a
  given window/topic succeeds, `reply` gives the payload string (if any)
  that arrives on a reply topic before the deadline, and `parseStr` models
  `serde_json::from_str`.
- Each handler returns its `Result<SocketResponse, Error>` value together
  with the ordered list of bridge `Action`s it performed (publishing a task
  to a window, registering a one-shot subscription, blocking on the reply
  channel with a timeout, unregistering a listener).  The action list is a
  direct transcription of the order of the `emit_to` / `once` /
  `recv_timeout` calls in the source.
-/

namespace TauriMcp

/-- Model of `serde_json::Value`.  Numbers are modelled as integers. -/
inductive Json where
  | null
  | bool (b : Bool)
  | num (n : Int)
  | str (s : String)
  | arr (items : List Json)
  | obj (fields : List (String × Json))
deriving Repr, Inhabited

/-- Model of `Value::get(key)` on an object (serde maps have unique keys). -/
def Json.get : Json → String → Option Json
  | .obj fs, k => fs.lookup k
  | _, _ => none

/-- Model of `Value::as_str`. -/
def Json.asStr : Json → Option String
  | .str s => some s
  | _ => none

/-- Model of `Value::as_u64` (composed with the `as usize` cast). -/
def Json.asNat : Json → Option Nat
  | .num n => if n ≥ 0 then some n.toNat else none
  | _ => none

/-- Model of `Value::as_bool`. -/
def Json.asBool : Json → Option Bool
  | .bool b => some b
  | _ => none

/-- Model of `SocketResponse` (src/socket_server.rs, used by every handler):
the uniform response envelope `{ success, data, error }`. -/
structure SocketResponse where
  success : Bool
  data : Option Json
  error : Option String
deriving Repr

/-- Model of the error taxonomy `Error` (src/error.rs). -/
inductive Error where
  | windowNotFound (label : String)
  | windowOperationFailed (operation : String) (reason : String) (context : Option String)
  | invalidParameter (param : String) (expected : String) (received : String)
  | timeoutErr (operation : String) (duration_ms : Nat)
  | serializationError (message : String)
  | communicationError (message : String) (context : Option String)
  | pluginInit (message : String)
  | ioErr (message : String)
  | anyhow (message : String)
  | tauriError (message : String)
deriving Repr

/-- Apostrophe character, used by the `InvalidParameter` display format. -/
def quoteChar : String := String.singleton (Char.ofNat 39)

/-- Model of `Error`'s `Display` implementation (the `#[error(...)]` format
strings of src/error.rs). -/
def Error.toMessage : Error → String
  | .windowNotFound label => "Window not found: " ++ label
  | .windowOperationFailed op reason _ => "Window operation failed: " ++ op ++ " - " ++ reason
  | .invalidParameter p e r =>
      "Invalid parameter " ++ quoteChar ++ p ++ quoteChar ++ ": expected " ++ e ++ ", got " ++ r
  | .timeoutErr op ms => "Operation timed out: " ++ op ++ " (exceeded " ++ toString ms ++ "ms)"
  | .serializationError m => "Serialization error: " ++ m
  | .communicationError m _ => "Communication error: " ++ m
  | .pluginInit m => "Plugin initialization error: " ++ m
  | .ioErr m => "IO error: " ++ m
  | .anyhow m => m
  | .tauriError m => "Tauri error: " ++ m

/-- Display text of `std::sync::mpsc::RecvTimeoutError::Timeout`, produced
when `recv_timeout` elapses. -/
def recvTimeoutMsg : String := "timed out waiting on channel"

/-- Build/system information reported by the health-check handler
(src/tools/health_check.rs): compile-time constants of the host build. -/
structure SysInfo where
  pkgVersion : String
  rustVersion : String
  profile : String
  os : String
  platform : String
  arch : String
  cpuCount : Nat

/-- Model of the Tauri runtime surrounding the handlers.
`windows` is the window registry (labels of existing webview windows, as
consulted by `app.get_webview_window`); `emitOk label topic` tells whether
`emit_to(label, topic, _)` / `window.emit(topic, _)` succeeds and
`emitErrMsg` gives the error text when it fails; `reply topic` is the
payload string delivered on `topic` before the caller's deadline (`none`
models a timeout); `parseStr` models `serde_json::from_str`; `urlResult`
and `navigateResult` model `window.url()` and `window.navigate(url)` for
the hot-reload handler; `external` models the handlers of this repository
whose sources are not under src/ (ping, take-screenshot, get-dom,
manage-local-storage, execute-js, manage-window, simulate-text-input,
simulate-mouse-movement, get-element-position, send-text-to-element). -/
structure Env where
  windows : List String
  emitOk : String → String → Bool
  emitErrMsg : String → String → String
  reply : String → Option String
  parseStr : String → Except String Json
  urlResult : String → Except String String
  navigateResult : String → String → Except String Unit
  external : String → Json → Except Error SocketResponse
  sys : SysInfo

/-- Bridge actions, in the order the handler code performs them:
`publish` is an `emit_to`/`emit` of a task to a window, `subscribeOnce` is
`app.once` on a reply topic, `awaitReply` is `rx.recv_timeout` with the
given timeout in milliseconds, `unlisten` is an explicit listener
deregistration (no handler in the source ever performs one). -/
inductive Action where
  | publish (window : String) (topic : String)
  | subscribeOnce (topic : String)
  | awaitReply (topic : String) (timeout_ms : Nat)
  | unlisten (topic : String)
deriving Repr, DecidableEq

/-! ### Payload decoding helpers (model of serde_json::from_value) -/

/-- Deserializing a struct requires a JSON object. -/
def Json.objFields : Json → Except String (List (String × Json))
  | .obj fs => .ok fs
  | _ => .error "invalid type: expected a JSON object"

/-- Decode an `Option<String>` struct field: absent or null gives `none`,
a string gives `some`, any other type is a serde type error. -/
def optStrField (fs : List (String × Json)) (k : String) : Except String (Option String) :=
  match fs.lookup k with
  | none => .ok none
  | some .null => .ok none
  | some (.str s) => .ok (some s)
  | some _ => .error ("invalid type for field " ++ k)

/-- Decode an `Option<u64>` / `Option<usize>` struct field. -/
def optNatField (fs : List (String × Json)) (k : String) : Except String (Option Nat) :=
  match fs.lookup k with
  | none => .ok none
  | some .null => .ok none
  | some (.num n) => if n ≥ 0 then .ok (some n.toNat) else .error ("invalid value for field " ++ k)
  | some _ => .error ("invalid type for field " ++ k)

/-- Decode an `Option<u16>` struct field (bounded). -/
def optU16Field (fs : List (String × Json)) (k : String) : Except String (Option Nat) :=
  match fs.lookup k with
  | none => .ok none
  | some .null => .ok none
  | some (.num n) =>
      if n ≥ 0 ∧ n ≤ 65535 then .ok (some n.toNat) else .error ("invalid value for field " ++ k)
  | some _ => .error ("invalid type for field " ++ k)

/-- Decode an `Option<i64>`-style numeric field (used for the duration
bounds of the performance resource filter, which are floats in the source;
the embedding restricts JSON numbers to integers). -/
def optIntField (fs : List (String × Json)) (k : String) : Except String (Option Int) :=
  match fs.lookup k with
  | none => .ok none
  | some .null => .ok none
  | some (.num n) => .ok (some n)
  | some _ => .error ("invalid type for field " ++ k)

/-- Decode an `Option<bool>` struct field. -/
def optBoolField (fs : List (String × Json)) (k : String) : Except String (Option Bool) :=
  match fs.lookup k with
  | none => .ok none
  | some .null => .ok none
  | some (.bool b) => .ok (some b)
  | some _ => .error ("invalid type for field " ++ k)

/-- Decode a required `String` struct field. -/
def reqStrField (fs : List (String × Json)) (k : String) : Except String String :=
  match fs.lookup k with
  | some (.str s) => .ok s
  | some _ => .error ("invalid type for field " ++ k)
  | none => .error ("missing field " ++ k)

/-- Decode an `Option<Vec<String>>` struct field. -/
def optStrListField (fs : List (String × Json)) (k : String) :
    Except String (Option (List String)) :=
  match fs.lookup k with
  | none => .ok none
  | some .null => .ok none
  | some (.arr items) =>
      match items.mapM Json.asStr with
      | some ss => .ok (some ss)
      | none => .error ("invalid type for field " ++ k)
  | some _ => .error ("invalid type for field " ++ k)

/-! ### Console logs (src/tools/console_logs.rs) -/

/-- Model of `LogLevel` (console log level enumeration). -/
inductive LogLevel where
  | debug | info | warn | error
deriving Repr, DecidableEq

/-- Model of `LogLevel::from_str` ("all" is a special value meaning no
filter and maps to `None`, as does any unknown string). -/
def LogLevel.from_str (s : String) : Option LogLevel :=
  match s.toLower with
  | "debug" => some .debug
  | "info" => some .info
  | "warn" => some .warn
  | "error" => some .error
  | _ => none

/-- Model of `ConsoleLogsError`. -/
inductive ConsoleLogsError where
  | webviewOperation (s : String)
  | timeoutError (s : String)
  | parseError (s : String)
deriving Repr

/-- Display implementation of `ConsoleLogsError`. -/
def ConsoleLogsError.toMessage : ConsoleLogsError → String
  | .webviewOperation s => "Console operation error: " ++ s
  | .timeoutError s => "Operation timed out: " ++ s
  | .parseError s => "Parse error: " ++ s

/-- Model of `ConsoleLogsRequest`. -/
structure ConsoleLogsRequest where
  window_label : Option String
  level : Option String
  start_time_ms : Option Nat
  end_time_ms : Option Nat
  limit : Option Nat
deriving Repr

/-- serde_json::from_value for `ConsoleLogsRequest`. -/
def decodeConsoleLogsRequest (payload : Json) : Except String ConsoleLogsRequest := do
  let fs ← payload.objFields
  let window_label ← optStrField fs "window_label"
  let level ← optStrField fs "level"
  let start_time_ms ← optNatField fs "start_time_ms"
  let end_time_ms ← optNatField fs "end_time_ms"
  let limit ← optNatField fs "limit"
  pure ⟨window_label, level, start_time_ms, end_time_ms, limit⟩

/-- Model of `ConsoleLogEntry`. -/
structure ConsoleLogEntry where
  timestamp : Nat
  level : String
  message : String
  args : List String
deriving Repr

/-- serde_json::from_value for one `ConsoleLogEntry` (all fields required). -/
def decodeLogEntry (j : Json) : Option ConsoleLogEntry :=
  match j with
  | .obj fs => do
      let t ← fs.lookup "timestamp"
      let ts ← t.asNat
      let lv ← (← fs.lookup "level").asStr
      let msg ← (← fs.lookup "message").asStr
      let argsJson ← fs.lookup "args"
      match argsJson with
      | .arr items => do
          let args ← items.mapM Json.asStr
          pure ⟨ts, lv, msg, args⟩
      | _ => none
  | _ => none

/-- serde_json::from_value for `Vec<ConsoleLogEntry>`. -/
def decodeLogEntries (j : Json) : Option (List ConsoleLogEntry) :=
  match j with
  | .arr items => items.mapM decodeLogEntry
  | _ => none

/-- serde serialization of a `ConsoleLogEntry`. -/
def consoleLogEntryToJson (e : ConsoleLogEntry) : Json :=
  .obj [("timestamp", .num e.timestamp), ("level", .str e.level),
        ("message", .str e.message), ("args", .arr (e.args.map Json.str))]

/-- Model of `ConsoleLogsResponse`. -/
structure ConsoleLogsResponse where
  logs : List ConsoleLogEntry
  total_count : Nat
  returned_count : Nat
deriving Repr

/-- serde serialization of `ConsoleLogsResponse`. -/
def consoleLogsResponseToJson (r : ConsoleLogsResponse) : Json :=
  .obj [("logs", .arr (r.logs.map consoleLogEntryToJson)),
        ("total_count", .num r.total_count),
        ("returned_count", .num r.returned_count)]

/-- Model of `retrieve_console_logs`: emits the `get-console-logs` task to
the window, then registers a one-shot listener on
`get-console-logs-response`, then blocks on the reply channel with a fixed
10-second timeout; a string-valued `error` field in the parsed reply
becomes a `WebviewOperation` error, otherwise the `logs` array and
`total_count` are extracted (defaulting to `[]` and the logs length). -/
def retrieve_console_logs (env : Env) (request : ConsoleLogsRequest) :
    Except ConsoleLogsError ConsoleLogsResponse × List Action :=
  let window_label := request.window_label.getD "main"
  if env.emitOk window_label "get-console-logs" = false then
    (.error (.webviewOperation ("Failed to emit event: " ++ env.emitErrMsg window_label "get-console-logs")),
     [.publish window_label "get-console-logs"])
  else
    let tr := [Action.publish window_label "get-console-logs",
               Action.subscribeOnce "get-console-logs-response",
               Action.awaitReply "get-console-logs-response" 10000]
    match env.reply "get-console-logs-response" with
    | none => (.error (.timeoutError ("Timeout waiting for console logs response: " ++ recvTimeoutMsg)), tr)
    | some result_string =>
      match env.parseStr result_string with
      | .error e => (.error (.parseError ("Failed to parse response: " ++ e)), tr)
      | .ok response =>
        match response.get "error" with
        | some (.str error_str) => (.error (.webviewOperation error_str), tr)
        | _ =>
          let logs := ((response.get "logs").bind decodeLogEntries).getD []
          let total_count := ((response.get "total_count").bind Json.asNat).getD logs.length
          (.ok ⟨logs, total_count, logs.length⟩, tr)

/-- Model of `handle_get_console_logs`: decode the payload, resolve the
window (default "main"), run the retrieval, and fold any retrieval error
into a `success:false` envelope. -/
def handle_get_console_logs (env : Env) (payload : Json) :
    Except Error SocketResponse × List Action :=
  match decodeConsoleLogsRequest payload with
  | .error e => (.error (.serializationError ("Invalid payload for console logs: " ++ e)), [])
  | .ok request =>
    let window_label := request.window_label.getD "main"
    if window_label ∈ env.windows then
      match retrieve_console_logs env request with
      | (.ok response, tr) =>
          (.ok { success := true, data := some (consoleLogsResponseToJson response), error := none }, tr)
      | (.error e, tr) =>
          (.ok { success := false, data := none, error := some e.toMessage }, tr)
    else
      (.error (.windowNotFound window_label), [])

/-- Model of `handle_inject_console_capture`: decode, resolve the window,
then fire the `inject-console-capture` notification (no reply expected). -/
def handle_inject_console_capture (env : Env) (payload : Json) :
    Except Error SocketResponse × List Action :=
  match payload.objFields >>= fun fs => optStrField fs "window_label" with
  | .error e => (.error (.serializationError ("Invalid payload for injection: " ++ e)), [])
  | .ok wl =>
    let window_label := wl.getD "main"
    if window_label ∈ env.windows then
      if env.emitOk window_label "inject-console-capture" = false then
        (.error (.communicationError "Failed to emit injection event"
            (some ("window: " ++ window_label ++ ", error: " ++ env.emitErrMsg window_label "inject-console-capture"))),
         [.publish window_label "inject-console-capture"])
      else
        (.ok { success := true, data := some (.obj [("message", .str "Console capture injected")]), error := none },
         [.publish window_label "inject-console-capture"])
    else
      (.error (.windowNotFound window_label), [])

/-! ### Error tracker (src/tools/error_tracker.rs) -/

/-- Model of `ErrorTrackerError`. -/
inductive ErrorTrackerError where
  | webviewOperation (s : String)
  | timeoutError (s : String)
  | parseError (s : String)
deriving Repr

/-- Display implementation of `ErrorTrackerError`. -/
def ErrorTrackerError.toMessage : ErrorTrackerError → String
  | .webviewOperation s => "Error tracking operation error: " ++ s
  | .timeoutError s => "Operation timed out: " ++ s
  | .parseError s => "Parse error: " ++ s

/-- Model of `ErrorTrackerRequest`. -/
structure ErrorTrackerRequest where
  window_label : Option String
  error_type : Option String
  message_pattern : Option String
  start_time_ms : Option Nat
  end_time_ms : Option Nat
  limit : Option Nat
deriving Repr

/-- serde_json::from_value for `ErrorTrackerRequest`. -/
def decodeErrorTrackerRequest (payload : Json) : Except String ErrorTrackerRequest := do
  let fs ← payload.objFields
  let window_label ← optStrField fs "window_label"
  let error_type ← optStrField fs "error_type"
  let message_pattern ← optStrField fs "message_pattern"
  let start_time_ms ← optNatField fs "start_time_ms"
  let end_time_ms ← optNatField fs "end_time_ms"
  let limit ← optNatField fs "limit"
  pure ⟨window_label, error_type, message_pattern, start_time_ms, end_time_ms, limit⟩

/-- Model of `StackFrame` (all fields optional). -/
structure StackFrame where
  function_name : Option String
  file_name : Option String
  line_number : Option Nat
  column_number : Option Nat
  source_mapped_file : Option String
  source_mapped_line : Option Nat
  source_mapped_column : Option Nat
deriving Repr

/-- serde_json::from_value for one `StackFrame`. -/
def decodeStackFrame (j : Json) : Option StackFrame :=
  match j with
  | .obj fs =>
      match optStrField fs "function_name", optStrField fs "file_name",
            optNatField fs "line_number", optNatField fs "column_number",
            optStrField fs "source_mapped_file", optNatField fs "source_mapped_line",
            optNatField fs "source_mapped_column" with
      | .ok a, .ok b, .ok c, .ok d, .ok e, .ok f, .ok g => some ⟨a, b, c, d, e, f, g⟩
      | _, _, _, _, _, _, _ => none
  | _ => none

/-- serde serialization of a `StackFrame` (`None` serializes as null). -/
def stackFrameToJson (f : StackFrame) : Json :=
  let os := fun (o : Option String) => (o.map Json.str).getD .null
  let onum := fun (o : Option Nat) => (o.map fun n => Json.num n).getD .null
  .obj [("function_name", os f.function_name), ("file_name", os f.file_name),
        ("line_number", onum f.line_number), ("column_number", onum f.column_number),
        ("source_mapped_file", os f.source_mapped_file),
        ("source_mapped_line", onum f.source_mapped_line),
        ("source_mapped_column", onum f.source_mapped_column)]

/-- Model of `ExceptionEntry`. -/
structure ExceptionEntry where
  id : String
  error_type : String
  message : String
  stack_trace : List StackFrame
  first_occurrence_ms : Nat
  last_occurrence_ms : Nat
  frequency : Nat
  error_details : Option String
deriving Repr

/-- serde_json::from_value for one `ExceptionEntry`. -/
def decodeExceptionEntry (j : Json) : Option ExceptionEntry :=
  match j with
  | .obj fs => do
      let id ← (← fs.lookup "id").asStr
      let et ← (← fs.lookup "error_type").asStr
      let msg ← (← fs.lookup "message").asStr
      let stJson ← fs.lookup "stack_trace"
      let frames ← match stJson with
        | .arr items => items.mapM decodeStackFrame
        | _ => none
      let fo ← (← fs.lookup "first_occurrence_ms").asNat
      let lo ← (← fs.lookup "last_occurrence_ms").asNat
      let fr ← (← fs.lookup "frequency").asNat
      let ed ← match optStrField fs "error_details" with
        | .ok o => some o
        | .error _ => none
      pure ⟨id, et, msg, frames, fo, lo, fr, ed⟩
  | _ => none

/-- serde serialization of an `ExceptionEntry`. -/
def exceptionEntryToJson (e : ExceptionEntry) : Json :=
  .obj [("id", .str e.id), ("error_type", .str e.error_type), ("message", .str e.message),
        ("stack_trace", .arr (e.stack_trace.map stackFrameToJson)),
        ("first_occurrence_ms", .num e.first_occurrence_ms),
        ("last_occurrence_ms", .num e.last_occurrence_ms),
        ("frequency", .num e.frequency),
        ("error_details", (e.error_details.map Json.str).getD .null)]

/-- Model of `ErrorTrackerResponse`. -/
structure ErrorTrackerResponse where
  exceptions : List ExceptionEntry
  total_count : Nat
  returned_count : Nat
deriving Repr

/-- serde serialization of `ErrorTrackerResponse`. -/
def errorTrackerResponseToJson (r : ErrorTrackerResponse) : Json :=
  .obj [("exceptions", .arr (r.exceptions.map exceptionEntryToJson)),
        ("total_count", .num r.total_count),
        ("returned_count", .num r.returned_count)]

/-- Model of `retrieve_exceptions`: emits `get-exceptions` to the window,
then registers a one-shot listener on `get-exceptions-response`, then
blocks with a fixed 10-second timeout. -/
def retrieve_exceptions (env : Env) (request : ErrorTrackerRequest) :
    Except ErrorTrackerError ErrorTrackerResponse × List Action :=
  let window_label := request.window_label.getD "main"
  if env.emitOk window_label "get-exceptions" = false then
    (.error (.webviewOperation ("Failed to emit event: " ++ env.emitErrMsg window_label "get-exceptions")),
     [.publish window_label "get-exceptions"])
  else
    let tr := [Action.publish window_label "get-exceptions",
               Action.subscribeOnce "get-exceptions-response",
               Action.awaitReply "get-exceptions-response" 10000]
    match env.reply "get-exceptions-response" with
    | none => (.error (.timeoutError ("Timeout waiting for error tracker response: " ++ recvTimeoutMsg)), tr)
    | some result_string =>
      match env.parseStr result_string with
      | .error e => (.error (.parseError ("Failed to parse response: " ++ e)), tr)
      | .ok response =>
        match response.get "error" with
        | some (.str error_str) => (.error (.webviewOperation error_str), tr)
        | _ =>
          let exceptions :=
            ((response.get "exceptions").bind fun j =>
              match j with
              | .arr items => items.mapM decodeExceptionEntry
              | _ => none).getD []
          let total_count := ((response.get "total_count").bind Json.asNat).getD exceptions.length
          (.ok ⟨exceptions, total_count, exceptions.length⟩, tr)

/-- Model of `handle_get_exceptions`. -/
def handle_get_exceptions (env : Env) (payload : Json) :
    Except Error SocketResponse × List Action :=
  match decodeErrorTrackerRequest payload with
  | .error e => (.error (.serializationError ("Invalid payload for error tracker: " ++ e)), [])
  | .ok request =>
    let window_label := request.window_label.getD "main"
    if window_label ∈ env.windows then
      match retrieve_exceptions env request with
      | (.ok response, tr) =>
          (.ok { success := true, data := some (errorTrackerResponseToJson response), error := none }, tr)
      | (.error e, tr) =>
          (.ok { success := false, data := none, error := some e.toMessage }, tr)
    else
      (.error (.windowNotFound window_label), [])

/-- Model of `InjectErrorTrackerRequest`. -/
structure InjectErrorTrackerRequest where
  window_label : Option String
  circular_buffer_size : Option Nat
deriving Repr

/-- Model of `handle_inject_error_tracker`: notify-only injection with a
default circular buffer size of 1000. -/
def handle_inject_error_tracker (env : Env) (payload : Json) :
    Except Error SocketResponse × List Action :=
  match (do
      let fs ← payload.objFields
      let wl ← optStrField fs "window_label"
      let cbs ← optNatField fs "circular_buffer_size"
      Except.ok (InjectErrorTrackerRequest.mk wl cbs)) with
  | .error e => (.error (.serializationError ("Invalid payload for error tracker injection: " ++ e)), [])
  | .ok request =>
    let window_label := request.window_label.getD "main"
    if window_label ∈ env.windows then
      let circular_buffer_size := request.circular_buffer_size.getD 1000
      if env.emitOk window_label "inject-error-tracker" = false then
        (.error (.communicationError "Failed to emit injection event"
            (some ("window: " ++ window_label ++ ", error: " ++ env.emitErrMsg window_label "inject-error-tracker"))),
         [.publish window_label "inject-error-tracker"])
      else
        (.ok { success := true,
               data := some (.obj [("message", .str "Error tracking script injected successfully"),
                                   ("circular_buffer_size", .num circular_buffer_size)]),
               error := none },
         [.publish window_label "inject-error-tracker"])
    else
      (.error (.windowNotFound window_label), [])

/-- Model of `handle_clear_exceptions`: notify-only clear event. -/
def handle_clear_exceptions (env : Env) (payload : Json) :
    Except Error SocketResponse × List Action :=
  match payload.objFields >>= fun fs => optStrField fs "window_label" with
  | .error e => (.error (.serializationError ("Invalid payload for clear exceptions: " ++ e)), [])
  | .ok wl =>
    let window_label := wl.getD "main"
    if window_label ∈ env.windows then
      if env.emitOk window_label "clear-exceptions" = false then
        (.error (.communicationError "Failed to emit clear event"
            (some ("window: " ++ window_label ++ ", error: " ++ env.emitErrMsg window_label "clear-exceptions"))),
         [.publish window_label "clear-exceptions"])
      else
        (.ok { success := true, data := some (.obj [("message", .str "Exceptions cleared")]), error := none },
         [.publish window_label "clear-exceptions"])
    else
      (.error (.windowNotFound window_label), [])

/-! ### Network inspector (src/tools/network_inspector.rs) -/

/-- Model of `NetworkInspectorError`. -/
inductive NetworkInspectorError where
  | webviewOperation (s : String)
  | timeoutError (s : String)
  | parseError (s : String)
deriving Repr

/-- Display implementation of `NetworkInspectorError`. -/
def NetworkInspectorError.toMessage : NetworkInspectorError → String
  | .webviewOperation s => "Network operation error: " ++ s
  | .timeoutError s => "Operation timed out: " ++ s
  | .parseError s => "Parse error: " ++ s

/-- Model of `NetworkRequestFilter`. -/
structure NetworkRequestFilter where
  url_pattern : Option String
  method : Option String
  status_code : Option Nat
  min_duration_ms : Option Nat
  max_duration_ms : Option Nat
  request_type : Option String
  start_time_ms : Option Nat
  end_time_ms : Option Nat
  limit : Option Nat
deriving Repr

/-- serde_json::from_value for `NetworkRequestFilter`. -/
def decodeNetworkRequestFilter (j : Json) : Except String NetworkRequestFilter := do
  let fs ← j.objFields
  let url_pattern ← optStrField fs "url_pattern"
  let method ← optStrField fs "method"
  let status_code ← optU16Field fs "status_code"
  let min_duration_ms ← optNatField fs "min_duration_ms"
  let max_duration_ms ← optNatField fs "max_duration_ms"
  let request_type ← optStrField fs "request_type"
  let start_time_ms ← optNatField fs "start_time_ms"
  let end_time_ms ← optNatField fs "end_time_ms"
  let limit ← optNatField fs "limit"
  pure ⟨url_pattern, method, status_code, min_duration_ms, max_duration_ms,
        request_type, start_time_ms, end_time_ms, limit⟩

/-- Model of `NetworkInspectorRequest` (`action` is a required field). -/
structure NetworkInspectorRequest where
  window_label : Option String
  action : String
  filter : Option NetworkRequestFilter
deriving Repr

/-- serde_json::from_value for `NetworkInspectorRequest`. -/
def decodeNetworkInspectorRequest (payload : Json) : Except String NetworkInspectorRequest := do
  let fs ← payload.objFields
  let window_label ← optStrField fs "window_label"
  let action ← reqStrField fs "action"
  let filter ← match fs.lookup "filter" with
    | none => Except.ok none
    | some .null => Except.ok none
    | some j => (decodeNetworkRequestFilter j).map some
  pure ⟨window_label, action, filter⟩

/-- Model of `NetworkRequest` (one captured request entry). -/
structure NetworkRequest where
  id : String
  url : String
  method : String
  request_type : String
  status_code : Option Nat
  request_headers : List (String × String)
  response_headers : List (String × String)
  request_body : Option String
  response_body : Option String
  error : Option String
  start_time_ms : Nat
  end_time_ms : Option Nat
  duration_ms : Option Nat
deriving Repr

/-- Decode a `HashMap<String, String>`. -/
def decodeStrMap (j : Json) : Option (List (String × String)) :=
  match j with
  | .obj fs => fs.mapM fun kv =>
      match kv.2 with
      | .str s => some (kv.1, s)
      | _ => none
  | _ => none

/-- serde_json::from_value for one `NetworkRequest`. -/
def decodeNetworkRequest (j : Json) : Option NetworkRequest :=
  match j with
  | .obj fs => do
      let id ← (← fs.lookup "id").asStr
      let url ← (← fs.lookup "url").asStr
      let method ← (← fs.lookup "method").asStr
      let rt ← (← fs.lookup "request_type").asStr
      let sc ← match optU16Field fs "status_code" with
        | .ok o => some o
        | .error _ => none
      let reqh ← (← fs.lookup "request_headers") |> decodeStrMap
      let resh ← (← fs.lookup "response_headers") |> decodeStrMap
      let reqb ← match optStrField fs "request_body" with
        | .ok o => some o
        | .error _ => none
      let resb ← match optStrField fs "response_body" with
        | .ok o => some o
        | .error _ => none
      let err ← match optStrField fs "error" with
        | .ok o => some o
        | .error _ => none
      let st ← (← fs.lookup "start_time_ms").asNat
      let et ← match optNatField fs "end_time_ms" with
        | .ok o => some o
        | .error _ => none
      let dur ← match optNatField fs "duration_ms" with
        | .ok o => some o
        | .error _ => none
      pure ⟨id, url, method, rt, sc, reqh, resh, reqb, resb, err, st, et, dur⟩
  | _ => none

/-- serde serialization of one `NetworkRequest`. -/
def networkRequestToJson (r : NetworkRequest) : Json :=
  let os := fun (o : Option String) => (o.map Json.str).getD .null
  let onum := fun (o : Option Nat) => (o.map fun n => Json.num n).getD .null
  .obj [("id", .str r.id), ("url", .str r.url), ("method", .str r.method),
        ("request_type", .str r.request_type), ("status_code", onum r.status_code),
        ("request_headers", .obj (r.request_headers.map fun kv => (kv.1, Json.str kv.2))),
        ("response_headers", .obj (r.response_headers.map fun kv => (kv.1, Json.str kv.2))),
        ("request_body", os r.request_body), ("response_body", os r.response_body),
        ("error", os r.error), ("start_time_ms", .num r.start_time_ms),
        ("end_time_ms", onum r.end_time_ms), ("duration_ms", onum r.duration_ms)]

/-- Model of `NetworkInspectorResponse`. -/
structure NetworkInspectorResponse where
  requests : List NetworkRequest
  total_count : Nat
  returned_count : Nat
  capture_active : Bool
deriving Repr

/-- serde serialization of `NetworkInspectorResponse`. -/
def networkInspectorResponseToJson (r : NetworkInspectorResponse) : Json :=
  .obj [("requests", .arr (r.requests.map networkRequestToJson)),
        ("total_count", .num r.total_count),
        ("returned_count", .num r.returned_count),
        ("capture_active", .bool r.capture_active)]

/-- Model of `retrieve_network_requests`: emits `get-network-requests`,
then registers a one-shot listener on `get-network-requests-response`,
then blocks with a fixed 15-second timeout. -/
def retrieve_network_requests (env : Env) (request : NetworkInspectorRequest) :
    Except NetworkInspectorError NetworkInspectorResponse × List Action :=
  let window_label := request.window_label.getD "main"
  if env.emitOk window_label "get-network-requests" = false then
    (.error (.webviewOperation ("Failed to emit event: " ++ env.emitErrMsg window_label "get-network-requests")),
     [.publish window_label "get-network-requests"])
  else
    let tr := [Action.publish window_label "get-network-requests",
               Action.subscribeOnce "get-network-requests-response",
               Action.awaitReply "get-network-requests-response" 15000]
    match env.reply "get-network-requests-response" with
    | none =>
        (.error (.timeoutError ("Timeout waiting for network inspector response: " ++ recvTimeoutMsg)), tr)
    | some result_string =>
      match env.parseStr result_string with
      | .error e => (.error (.parseError ("Failed to parse response: " ++ e)), tr)
      | .ok response =>
        match response.get "error" with
        | some (.str error_str) => (.error (.webviewOperation error_str), tr)
        | _ =>
          let requests :=
            ((response.get "requests").bind fun j =>
              match j with
              | .arr items => items.mapM decodeNetworkRequest
              | _ => none).getD []
          let total_count := ((response.get "total_count").bind Json.asNat).getD requests.length
          let capture_active := ((response.get "capture_active").bind Json.asBool).getD false
          (.ok ⟨requests, total_count, requests.length, capture_active⟩, tr)

/-- Model of `clear_network_requests`: emits `clear-network-requests` and
synthesizes an empty response with `capture_active := true`, without
waiting for any reply. -/
def clear_network_requests (env : Env) (request : NetworkInspectorRequest) :
    Except NetworkInspectorError NetworkInspectorResponse × List Action :=
  let window_label := request.window_label.getD "main"
  if env.emitOk window_label "clear-network-requests" = false then
    (.error (.webviewOperation ("Failed to emit event: " ++ env.emitErrMsg window_label "clear-network-requests")),
     [.publish window_label "clear-network-requests"])
  else
    (.ok ⟨[], 0, 0, true⟩, [.publish window_label "clear-network-requests"])

/-- Model of `start_network_capture`: emits `start-network-capture` and
synthesizes an empty response with `capture_active := true`. -/
def start_network_capture (env : Env) (request : NetworkInspectorRequest) :
    Except NetworkInspectorError NetworkInspectorResponse × List Action :=
  let window_label := request.window_label.getD "main"
  if env.emitOk window_label "start-network-capture" = false then
    (.error (.webviewOperation ("Failed to emit event: " ++ env.emitErrMsg window_label "start-network-capture")),
     [.publish window_label "start-network-capture"])
  else
    (.ok ⟨[], 0, 0, true⟩, [.publish window_label "start-network-capture"])

/-- Model of `stop_network_capture`: emits `stop-network-capture` and
synthesizes an empty response with `capture_active := false`. -/
def stop_network_capture (env : Env) (request : NetworkInspectorRequest) :
    Except NetworkInspectorError NetworkInspectorResponse × List Action :=
  let window_label := request.window_label.getD "main"
  if env.emitOk window_label "stop-network-capture" = false then
    (.error (.webviewOperation ("Failed to emit event: " ++ env.emitErrMsg window_label "stop-network-capture")),
     [.publish window_label "stop-network-capture"])
  else
    (.ok ⟨[], 0, 0, false⟩, [.publish window_label "stop-network-capture"])

/-- Model of `handle_network_inspector`: decode, resolve the window, then
route on `action` (`get_requests`, `clear_requests`, `start_capture`,
`stop_capture`; anything else is a parse error), folding any helper error
into a `success:false` envelope. -/
def handle_network_inspector (env : Env) (payload : Json) :
    Except Error SocketResponse × List Action :=
  match decodeNetworkInspectorRequest payload with
  | .error e => (.error (.serializationError ("Invalid payload for network inspector: " ++ e)), [])
  | .ok request =>
    let window_label := request.window_label.getD "main"
    if window_label ∈ env.windows then
      let result :=
        match request.action with
        | "get_requests" => retrieve_network_requests env request
        | "clear_requests" => clear_network_requests env request
        | "start_capture" => start_network_capture env request
        | "stop_capture" => stop_network_capture env request
        | other => (.error (.parseError ("Unknown action: " ++ other)), [])
      match result with
      | (.ok response, tr) =>
          (.ok { success := true, data := some (networkInspectorResponseToJson response), error := none }, tr)
      | (.error e, tr) =>
          (.ok { success := false, data := none, error := some e.toMessage }, tr)
    else
      (.error (.windowNotFound window_label), [])

/-- Model of `handle_inject_network_capture`: notify-only injection. -/
def handle_inject_network_capture (env : Env) (payload : Json) :
    Except Error SocketResponse × List Action :=
  match payload.objFields >>= fun fs => optStrField fs "window_label" with
  | .error e => (.error (.serializationError ("Invalid payload for injection: " ++ e)), [])
  | .ok wl =>
    let window_label := wl.getD "main"
    if window_label ∈ env.windows then
      if env.emitOk window_label "inject-network-capture" = false then
        (.error (.communicationError "Failed to emit injection event"
            (some ("window: " ++ window_label ++ ", error: " ++ env.emitErrMsg window_label "inject-network-capture"))),
         [.publish window_label "inject-network-capture"])
      else
        (.ok { success := true, data := some (.obj [("message", .str "Network capture injected")]), error := none },
         [.publish window_label "inject-network-capture"])
    else
      (.error (.windowNotFound window_label), [])

/-! ### Performance metrics (src/tools/performance.rs) -/

/-- Model of `ResourceFilter` (duration bounds are floats in the source;
the embedding restricts JSON numbers to integers). -/
structure ResourceFilter where
  resource_type : Option (List String)
  min_duration_ms : Option Int
  max_duration_ms : Option Int
  url_pattern : Option String
deriving Repr

/-- serde_json::from_value for `ResourceFilter`. -/
def decodeResourceFilter (j : Json) : Except String ResourceFilter := do
  let fs ← j.objFields
  let resource_type ← optStrListField fs "resource_type"
  let min_duration_ms ← optIntField fs "min_duration_ms"
  let max_duration_ms ← optIntField fs "max_duration_ms"
  let url_pattern ← optStrField fs "url_pattern"
  pure ⟨resource_type, min_duration_ms, max_duration_ms, url_pattern⟩

/-- Model of `PerformanceMetricsRequest`. -/
structure PerformanceMetricsRequest where
  window_label : Option String
  include_navigation : Option Bool
  include_resources : Option Bool
  include_user_timing : Option Bool
  include_memory : Option Bool
  include_long_tasks : Option Bool
  resource_filter : Option ResourceFilter
  timeout_ms : Option Nat
deriving Repr

/-- serde_json::from_value for `PerformanceMetricsRequest`. -/
def decodePerformanceMetricsRequest (payload : Json) :
    Except String PerformanceMetricsRequest := do
  let fs ← payload.objFields
  let window_label ← optStrField fs "window_label"
  let include_navigation ← optBoolField fs "include_navigation"
  let include_resources ← optBoolField fs "include_resources"
  let include_user_timing ← optBoolField fs "include_user_timing"
  let include_memory ← optBoolField fs "include_memory"
  let include_long_tasks ← optBoolField fs "include_long_tasks"
  let resource_filter ← match fs.lookup "resource_filter" with
    | none => Except.ok none
    | some .null => Except.ok none
    | some j => (decodeResourceFilter j).map some
  let timeout_ms ← optNatField fs "timeout_ms"
  pure ⟨window_label, include_navigation, include_resources, include_user_timing,
        include_memory, include_long_tasks, resource_filter, timeout_ms⟩

/-- Model of `handle_get_performance_metrics`: decode, resolve the window,
emit the generated metrics script on `execute-js`, register a one-shot
listener on `execute-js-response`, and block with timeout
`timeout_ms.getD 10000`.  A timeout or a malformed reply propagates as an
`Error`; a string `error` field in the reply folds into a `success:false`
envelope; a string `result` field yields `success:true` (with the parsed
metrics, or the raw string plus parse error when the inner parse fails);
a missing or non-string `result` yields `success:false`. -/
def handle_get_performance_metrics (env : Env) (payload : Json) :
    Except Error SocketResponse × List Action :=
  match decodePerformanceMetricsRequest payload with
  | .error e => (.error (.serializationError ("Invalid payload for performance metrics: " ++ e)), [])
  | .ok request =>
    let window_label := request.window_label.getD "main"
    if window_label ∈ env.windows then
      if env.emitOk window_label "execute-js" = false then
        (.error (.communicationError "Failed to emit execute-js event"
            (some ("window: " ++ window_label ++ ", error: " ++ env.emitErrMsg window_label "execute-js"))),
         [.publish window_label "execute-js"])
      else
        let timeout := request.timeout_ms.getD 10000
        let tr := [Action.publish window_label "execute-js",
                   Action.subscribeOnce "execute-js-response",
                   Action.awaitReply "execute-js-response" timeout]
        match env.reply "execute-js-response" with
        | none => (.error (.timeoutErr "performance metrics execution" (request.timeout_ms.getD 10000)), tr)
        | some result_string =>
          match env.parseStr result_string with
          | .error e =>
              (.error (.serializationError ("Failed to parse performance metrics response: " ++ e)), tr)
          | .ok response_value =>
            match response_value.get "error" with
            | some (.str error_str) =>
                (.ok { success := false, data := none, error := some error_str }, tr)
            | _ =>
              match response_value.get "result" with
              | some r =>
                match r with
                | .str result_str =>
                  (match env.parseStr result_str with
                   | .ok metrics =>
                       (.ok { success := true, data := some metrics, error := none }, tr)
                   | .error e =>
                       (.ok { success := true,
                              data := some (.obj [("raw_result", .str result_str),
                                                  ("parse_error", .str e)]),
                              error := none }, tr))
                | _ =>
                    (.ok { success := false, data := none,
                           error := some "Performance metrics result is not a string" }, tr)
              | none =>
                  (.ok { success := false, data := none,
                         error := some "No result in performance metrics response" }, tr)
    else
      (.error (.windowNotFound window_label), [])

/-! ### State dump handler (src/tools/state_dump.rs) -/

/-- Model of `StateDumpRequest`. -/
structure StateDumpRequest where
  window_label : Option String
  max_depth : Option Nat
  path : Option String
  timeout_ms : Option Nat
deriving Repr

/-- serde_json::from_value for `StateDumpRequest`. -/
def decodeStateDumpRequest (payload : Json) : Except String StateDumpRequest := do
  let fs ← payload.objFields
  let window_label ← optStrField fs "window_label"
  let max_depth ← optNatField fs "max_depth"
  let path ← optStrField fs "path"
  let timeout_ms ← optNatField fs "timeout_ms"
  pure ⟨window_label, max_depth, path, timeout_ms⟩

/-- Model of `handle_state_dump`: same bridge shape as the performance
handler, with the state-dump script emitted on `execute-js`, a default
timeout of 5000 ms, and the state-dump message texts. -/
def handle_state_dump (env : Env) (payload : Json) :
    Except Error SocketResponse × List Action :=
  match decodeStateDumpRequest payload with
  | .error e => (.error (.serializationError ("Invalid payload for state_dump: " ++ e)), [])
  | .ok request =>
    let window_label := request.window_label.getD "main"
    if window_label ∈ env.windows then
      if env.emitOk window_label "execute-js" = false then
        (.error (.communicationError "Failed to emit execute-js event"
            (some ("window: " ++ window_label ++ ", error: " ++ env.emitErrMsg window_label "execute-js"))),
         [.publish window_label "execute-js"])
      else
        let timeout := request.timeout_ms.getD 5000
        let tr := [Action.publish window_label "execute-js",
                   Action.subscribeOnce "execute-js-response",
                   Action.awaitReply "execute-js-response" timeout]
        match env.reply "execute-js-response" with
        | none => (.error (.timeoutErr "state dump execution" (request.timeout_ms.getD 5000)), tr)
        | some result_string =>
          match env.parseStr result_string with
          | .error e =>
              (.error (.serializationError ("Failed to parse state dump response: " ++ e)), tr)
          | .ok response_value =>
            match response_value.get "error" with
            | some (.str error_str) =>
                (.ok { success := false, data := none, error := some error_str }, tr)
            | _ =>
              match response_value.get "result" with
              | some r =>
                match r with
                | .str result_str =>
                  (match env.parseStr result_str with
                   | .ok dump =>
                       (.ok { success := true, data := some dump, error := none }, tr)
                   | .error e =>
                       (.ok { success := true,
                              data := some (.obj [("raw_result", .str result_str),
                                                  ("parse_error", .str e)]),
                              error := none }, tr))
                | _ =>
                    (.ok { success := false, data := none,
                           error := some "State dump result is not a string" }, tr)
              | none =>
                  (.ok { success := false, data := none,
                         error := some "No result in state dump response" }, tr)
    else
      (.error (.windowNotFound window_label), [])

/-! ### DevTools bridge handler (src/tools/devtools_bridge.rs) -/

/-- Model of `DevToolsBridgeRequest`. -/
structure DevToolsBridgeRequest where
  window_label : Option String
  max_depth : Option Nat
  component_filter : Option String
  timeout_ms : Option Nat
deriving Repr

/-- serde_json::from_value for `DevToolsBridgeRequest`. -/
def decodeDevToolsBridgeRequest (payload : Json) : Except String DevToolsBridgeRequest := do
  let fs ← payload.objFields
  let window_label ← optStrField fs "window_label"
  let max_depth ← optNatField fs "max_depth"
  let component_filter ← optStrField fs "component_filter"
  let timeout_ms ← optNatField fs "timeout_ms"
  pure ⟨window_label, max_depth, component_filter, timeout_ms⟩

/-- Model of `handle_devtools_bridge`: same bridge shape as the state-dump
handler (default timeout 5000 ms) with the devtools message texts. -/
def handle_devtools_bridge (env : Env) (payload : Json) :
    Except Error SocketResponse × List Action :=
  match decodeDevToolsBridgeRequest payload with
  | .error e => (.error (.serializationError ("Invalid payload for devtools_bridge: " ++ e)), [])
  | .ok request =>
    let window_label := request.window_label.getD "main"
    if window_label ∈ env.windows then
      if env.emitOk window_label "execute-js" = false then
        (.error (.communicationError "Failed to emit execute-js event"
            (some ("window: " ++ window_label ++ ", error: " ++ env.emitErrMsg window_label "execute-js"))),
         [.publish window_label "execute-js"])
      else
        let timeout := request.timeout_ms.getD 5000
        let tr := [Action.publish window_label "execute-js",
                   Action.subscribeOnce "execute-js-response",
                   Action.awaitReply "execute-js-response" timeout]
        match env.reply "execute-js-response" with
        | none => (.error (.timeoutErr "devtools bridge execution" (request.timeout_ms.getD 5000)), tr)
        | some result_string =>
          match env.parseStr result_string with
          | .error e =>
              (.error (.serializationError ("Failed to parse devtools response: " ++ e)), tr)
          | .ok response_value =>
            match response_value.get "error" with
            | some (.str error_str) =>
                (.ok { success := false, data := none, error := some error_str }, tr)
            | _ =>
              match response_value.get "result" with
              | some r =>
                match r with
                | .str result_str =>
                  (match env.parseStr result_str with
                   | .ok bridge_data =>
                       (.ok { success := true, data := some bridge_data, error := none }, tr)
                   | .error e =>
                       (.ok { success := true,
                              data := some (.obj [("raw_result", .str result_str),
                                                  ("parse_error", .str e)]),
                              error := none }, tr))
                | _ =>
                    (.ok { success := false, data := none,
                           error := some "DevTools result is not a string" }, tr)
              | none =>
                  (.ok { success := false, data := none,
                         error := some "No result in devtools response" }, tr)
    else
      (.error (.windowNotFound window_label), [])

/-! ### Storage inspector (src/tools/storage_inspector.rs) -/

/-- Model of `StorageInspectorError`. -/
inductive StorageInspectorError where
  | webviewOperation (s : String)
  | javaScriptError (s : String)
  | timeout (s : String)
deriving Repr

/-- Display implementation of `StorageInspectorError`. -/
def StorageInspectorError.toMessage : StorageInspectorError → String
  | .webviewOperation s => "Storage operation error: " ++ s
  | .javaScriptError s => "JavaScript error: " ++ s
  | .timeout s => "Operation timed out: " ++ s

/-- Model of `StorageInspectorRequest`. -/
structure StorageInspectorRequest where
  window_label : Option String
  action : String
  storage_type : Option String
  key_pattern : Option String
  page : Option Nat
  page_size : Option Nat
  db_name : Option String
  store_name : Option String
deriving Repr

/-- serde_json::from_value for `StorageInspectorRequest`. -/
def decodeStorageInspectorRequest (payload : Json) : Except String StorageInspectorRequest := do
  let fs ← payload.objFields
  let window_label ← optStrField fs "window_label"
  let action ← reqStrField fs "action"
  let storage_type ← optStrField fs "storage_type"
  let key_pattern ← optStrField fs "key_pattern"
  let page ← optNatField fs "page"
  let page_size ← optNatField fs "page_size"
  let db_name ← optStrField fs "db_name"
  let store_name ← optStrField fs "store_name"
  pure ⟨window_label, action, storage_type, key_pattern, page, page_size, db_name, store_name⟩

/-- Model of `perform_storage_inspector_operation`: emits `inspect-storage`
to the window, registers a one-shot listener on `inspect-storage-response`,
blocks with a fixed 10-second timeout; a present `error` field is a
`JavaScriptError` (with text "Unknown error" when it is not a string); the
`data` field (or JSON null) is returned on success. -/
def perform_storage_inspector_operation (env : Env) (params : StorageInspectorRequest) :
    Except StorageInspectorError Json × List Action :=
  let window_label := params.window_label.getD "main"
  if env.emitOk window_label "inspect-storage" = false then
    (.error (.webviewOperation ("Failed to emit event: " ++ env.emitErrMsg window_label "inspect-storage")),
     [.publish window_label "inspect-storage"])
  else
    let tr := [Action.publish window_label "inspect-storage",
               Action.subscribeOnce "inspect-storage-response",
               Action.awaitReply "inspect-storage-response" 10000]
    match env.reply "inspect-storage-response" with
    | none =>
        (.error (.timeout ("Timeout waiting for storage inspector response: " ++ recvTimeoutMsg)), tr)
    | some result_string =>
      match env.parseStr result_string with
      | .error e => (.error (.javaScriptError ("Failed to parse response: " ++ e)), tr)
      | .ok response =>
        match response.get "error" with
        | some (.str error_str) => (.error (.javaScriptError error_str), tr)
        | some _ => (.error (.javaScriptError "Unknown error"), tr)
        | none =>
          match response.get "data" with
          | some data => (.ok data, tr)
          | none => (.ok .null, tr)

/-- Input validation of `handle_get_storage_inspector` (the `match` on
`params.action` preceding the window lookup): the message of the
`success:false` envelope returned for an invalid parameter combination,
or `none` when validation passes. -/
def storageValidationError (params : StorageInspectorRequest) : Option String :=
  match params.action with
  | "get_storage" =>
      if params.storage_type.isNone
      then some "storage_type is required for get_storage action" else none
  | "clear_storage" =>
      if params.storage_type.isNone
      then some "storage_type is required for clear_storage action" else none
  | "list_indexeddb" => none
  | "query_indexeddb" =>
      if params.db_name.isNone ∨ params.store_name.isNone
      then some "db_name and store_name are required for query_indexeddb action" else none
  | other => some ("Unsupported storage inspector action: " ++ other)

/-- Model of `handle_get_storage_inspector`: decode, validate the action
parameters (returning `success:false` envelopes on validation failure,
before any window lookup), resolve the window, run the operation, and fold
any operation error into a `success:false` envelope. -/
def handle_get_storage_inspector (env : Env) (payload : Json) :
    Except Error SocketResponse × List Action :=
  match decodeStorageInspectorRequest payload with
  | .error e => (.error (.serializationError ("Invalid payload for storage inspector: " ++ e)), [])
  | .ok params =>
    match storageValidationError params with
    | some msg => (.ok { success := false, data := none, error := some msg }, [])
    | none =>
      let window_label := params.window_label.getD "main"
      if window_label ∈ env.windows then
        match perform_storage_inspector_operation env params with
        | (.ok data, tr) =>
            (.ok { success := true, data := some data, error := none }, tr)
        | (.error e, tr) =>
            (.ok { success := false, data := none, error := some e.toMessage }, tr)
      else
        (.error (.windowNotFound window_label), [])

/-! ### Hot reload (src/tools/hot_reload.rs) -/

/-- Model of `handle_hot_reload`: decode, resolve the window, read the
current URL (propagating a window-operation-failed error if that fails),
navigate to it, and fold a navigation failure into a `success:false`
envelope. -/
def handle_hot_reload (env : Env) (payload : Json) :
    Except Error SocketResponse × List Action :=
  match payload.objFields >>= fun fs => optStrField fs "window_label" with
  | .error e => (.error (.serializationError ("Invalid payload for hot_reload: " ++ e)), [])
  | .ok wl =>
    let window_label := wl.getD "main"
    if window_label ∈ env.windows then
      match env.urlResult window_label with
      | .error e => (.error (.windowOperationFailed "get window URL" e none), [])
      | .ok current_url =>
        match env.navigateResult window_label current_url with
        | .ok _ =>
            (.ok { success := true,
                   data := some (.obj [("success", .bool true),
                                       ("window_label", .str window_label),
                                       ("message", .str ("Successfully reloaded window: " ++ window_label))]),
                   error := none }, [])
        | .error e =>
            (.ok { success := false, data := none,
                   error := some ("Failed to reload window " ++ window_label ++ ": " ++ e) }, [])
    else
      (.error (.windowNotFound window_label), [])

/-! ### Health check (src/tools/health_check.rs) -/

/-- Capability list reported by `detect_capabilities`. -/
def capabilitiesList : List String :=
  ["take_screenshot", "get_dom", "execute_js", "manage_window", "simulate_text_input",
   "simulate_mouse_movement", "get_element_position", "send_text_to_element",
   "manage_local_storage", "hot_reload", "get_console_logs", "inject_console_capture",
   "network_inspector", "inject_network_capture", "state_dump", "get_exceptions",
   "inject_error_tracker", "clear_exceptions", "get_performance_metrics", "health_check"]

/-- serde serialization (camelCase) of the health-check response for a
given environment: status "healthy", build/system info from the host,
the static capability list, `socket_server_running`/`event_system_available`
hard-coded true, and `main_window_available` from the registry. -/
def healthCheckResponseJson (env : Env) : Json :=
  .obj [("status", .str "healthy"),
        ("pluginVersion", .str env.sys.pkgVersion),
        ("buildInfo", .obj [("version", .str env.sys.pkgVersion),
                            ("rustVersion", .str env.sys.rustVersion),
                            ("profile", .str env.sys.profile)]),
        ("systemInfo", .obj [("os", .str env.sys.os),
                             ("platform", .str env.sys.platform),
                             ("arch", .str env.sys.arch),
                             ("cpuCount", .num env.sys.cpuCount)]),
        ("capabilities", .arr (capabilitiesList.map Json.str)),
        ("connectionStatus", .obj [("socketServerRunning", .bool true),
                                   ("eventSystemAvailable", .bool true)]),
        ("webviewStatus", .obj [("webviewAvailable", .bool true),
                                ("mainWindowAvailable", .bool (env.windows.contains "main"))])]

/-- Model of `handle_health_check`: ignores the payload entirely (no
decode, no window-label resolution) and always returns a `success:true`
envelope with the health report. -/
def handle_health_check (env : Env) (_payload : Json) :
    Except Error SocketResponse × List Action :=
  (.ok { success := true, data := some (healthCheckResponseJson env), error := none }, [])

/-! ### Command catalogue and dispatcher (src/tools/mod.rs)

The command-name string constants live in `src/shared/commands.rs`, which
is not under src/; the names below are modelled from the spec.  -/

/-- Modelled from the spec: the command-name constants of
`crate::shared::commands` (absent from src/); the names follow the
catalogue of spec §4.3 and the literal names used in spec §8
("get-console-logs", "health-check"). -/
def commandNames : List String :=
  ["ping", "take-screenshot", "get-dom", "manage-local-storage", "execute-js",
   "manage-window", "simulate-text-input", "simulate-mouse-movement",
   "get-element-position", "send-text-to-element", "hot-reload",
   "get-console-logs", "inject-console-capture", "network-inspector",
   "inject-network-capture", "state-dump", "devtools-bridge", "get-exceptions",
   "inject-error-tracker", "clear-exceptions", "get-performance-metrics",
   "storage-inspector", "health-check"]

/-- Handlers of this repository whose sources are not under src/ are
routed through `Env.external` (see `Env`); this list names them. -/
def externalCommandNames : List String :=
  ["ping", "take-screenshot", "get-dom", "manage-local-storage", "execute-js",
   "manage-window", "simulate-text-input", "simulate-mouse-movement",
   "get-element-position", "send-text-to-element"]

/-- Model of `handle_command` (src/tools/mod.rs): route the command name to
its handler, falling through to a `success:false` "Unknown command"
envelope for names outside the catalogue.  The result — including any
`Error` a handler returns — is returned to the caller unchanged (the
logging between the match and the return does not alter it). -/
def handle_command (env : Env) (command : String) (payload : Json) :
    Except Error SocketResponse × List Action :=
  if command ∈ externalCommandNames then (env.external command payload, [])
  else if command = "hot-reload" then handle_hot_reload env payload
  else if command = "get-console-logs" then handle_get_console_logs env payload
  else if command = "inject-console-capture" then handle_inject_console_capture env payload
  else if command = "network-inspector" then handle_network_inspector env payload
  else if command = "inject-network-capture" then handle_inject_network_capture env payload
  else if command = "state-dump" then handle_state_dump env payload
  else if command = "devtools-bridge" then handle_devtools_bridge env payload
  else if command = "get-exceptions" then handle_get_exceptions env payload
  else if command = "inject-error-tracker" then handle_inject_error_tracker env payload
  else if command = "clear-exceptions" then handle_clear_exceptions env payload
  else if command = "get-performance-metrics" then handle_get_performance_metrics env payload
  else if command = "storage-inspector" then handle_get_storage_inspector env payload
  else if command = "health-check" then handle_health_check env payload
  else (.ok { success := false, data := none, error := some ("Unknown command: " ++ command) }, [])

/-! ### Trace predicates -/

/-- Scan of a trace checking that every `publish` is preceded (or
accompanied) by some earlier `subscribeOnce`: the formal reading of
"the task is never published while no subscription exists". -/
def eachPublishPrecededAux : Bool → List Action → Bool
  | _, [] => true
  | _, .subscribeOnce _ :: rest => eachPublishPrecededAux true rest
  | seenSub, .publish _ _ :: rest => seenSub && eachPublishPrecededAux seenSub rest
  | seenSub, _ :: rest => eachPublishPrecededAux seenSub rest

/-- Every `publish` in the trace has an earlier `subscribeOnce`. -/
def eachPublishPreceded (tr : List Action) : Bool :=
  eachPublishPrecededAux false tr

/-- The first action of the trace is a `publish`. -/
def headIsPublish (tr : List Action) : Bool :=
  match tr with
  | .publish _ _ :: _ => true
  | _ => false

/-- The trace contains an `unlisten` (explicit listener deregistration). -/
def hasUnlisten (tr : List Action) : Bool :=
  tr.any fun a => match a with
    | .unlisten _ => true
    | _ => false

/-- Timeout (in ms) of the first `awaitReply` in a trace. -/
def firstAwaitMs (tr : List Action) : Option Nat :=
  match tr with
  | [] => none
  | .awaitReply _ ms :: _ => some ms
  | _ :: rest => firstAwaitMs rest

/-! ### Listener-table semantics of the event hub

Model of the Tauri event system as used by the bridge: `app.once`
registers a one-shot listener for a topic; emitting an event on a topic
fires (and removes) every currently registered one-shot listener for that
topic.  Listener ids are allocated sequentially. -/

/-- Table of registered one-shot listeners `(id, topic)`. -/
structure Hub where
  listeners : List (Nat × String)
  nextId : Nat
deriving Repr, DecidableEq

/-- Model of `app.once(topic, …)`: registers a fresh one-shot listener and
returns its id. -/
def Hub.once (hub : Hub) (topic : String) : Hub × Nat :=
  ({ listeners := hub.listeners ++ [(hub.nextId, topic)], nextId := hub.nextId + 1 },
   hub.nextId)

/-- Model of an event being published on `topic`: every registered
one-shot listener for that topic fires (their ids are returned, in
registration order) and is removed from the table. -/
def Hub.emitEvent (hub : Hub) (topic : String) : Hub × List Nat :=
  ({ listeners := hub.listeners.filter (fun l => !(l.2 == topic)), nextId := hub.nextId },
   (hub.listeners.filter (fun l => l.2 == topic)).map Prod.fst)

/-! ### Semantic model of the generated state-dump script
(`generate_state_dump_code`, src/tools/state_dump.rs lines 144–380)

The handler emits a JavaScript program whose text is produced by
`generate_state_dump_code(max_depth, path)`.  The program's central
routine `safeStringify(value, depth)` walks a JavaScript value graph under
a depth cap (`MAX_DEPTH`, the request's `max_depth`, default 10), a total
size cap (`MAX_SIZE = 1000000`, accounted via `currentSize`), and a
`WeakSet` of already-seen objects.  The embedding below represents the
JavaScript heap as a graph (`JsHeap`): object-typed values are references
into a store of object shapes, which makes cyclic values expressible.
`JSON.stringify(value).length` (used only for the size accounting; it
throws on cyclic values, which the script swallows) is modelled by the
oracle `stringifyLen`.  The recursion is driven by the fuel
`MAX_DEPTH + 1 - depth`, which decreases by one exactly where the script
recurses with `depth + 1`; fuel 0 is precisely the script's
`depth > MAX_DEPTH` early return.  `undefined` results are modelled as
JSON null (the script's output is immediately JSON.stringify-ed, where
this difference is not observable by any claim). -/

/-- JavaScript values: primitives, functions, and references into the heap. -/
inductive JsVal where
  | jsNull
  | jsUndef
  | jsBool (b : Bool)
  | jsNum (n : Int)
  | jsStr (s : String)
  | jsFunc
  | ref (id : Nat)
deriving Repr, DecidableEq

/-- Shapes of heap objects, mirroring the type tests of `safeStringify`
(Array.isArray, plain Object, Map, Set, Date, RegExp, any other
constructor). -/
inductive JsObj where
  | arr (items : List JsVal)
  | plain (fields : List (String × JsVal))
  | jmap (entries : List (String × JsVal))
  | jset (items : List JsVal)
  | date (iso : String)
  | regexp (source : String) (flags : String)
  | exotic (ctorName : String)
deriving Repr

/-- The JavaScript heap: object shapes by id plus the
`JSON.stringify(value).length` oracle (`none` models a throw, e.g. on
cyclic values). -/
structure JsHeap where
  objs : Nat → JsObj
  stringifyLen : Nat → Option Nat

/-- Mutable state of one `safeStringify` run: the `currentSize` counter
and the set of already-seen object ids. -/
structure SDState where
  size : Nat
  seen : List Nat
deriving Repr, DecidableEq

/-- The script's `MAX_SIZE` constant. -/
def MAX_SIZE_STATE_DUMP : Nat := 1000000

/-- State-threading map over a list (the script's `value.map(...)` /
`for`-loops, which mutate `currentSize` and `seen` left to right). -/
def statefulMap (f : JsVal → SDState → Json × SDState) :
    List JsVal → SDState → List Json × SDState
  | [], st => ([], st)
  | v :: rest, st =>
    let p := f v st
    let q := statefulMap f rest p.2
    (p.1 :: q.1, q.2)

/-- State-threading map over key/value entries. -/
def statefulMapFields (f : JsVal → SDState → Json × SDState) :
    List (String × JsVal) → SDState → List (String × Json) × SDState
  | [], st => ([], st)
  | kv :: rest, st =>
    let p := f kv.2 st
    let q := statefulMapFields f rest p.2
    ((kv.1, p.1) :: q.1, q.2)

/-- Dispatch on the shape of a heap object, mirroring the body of
`safeStringify` after the depth / primitive / seen / size checks:
arrays map their items; plain objects keep the first 100 keys and add a
"[... more keys]" marker beyond that; Maps keep the first 100 entries with
a "[... more entries]" marker beyond that; Sets keep the first 100 items;
Dates become their ISO string; RegExps become a source/flags object; any
other constructor becomes an "[Object Name]" marker.  `f` is the recursive
call at `depth + 1`. -/
def sdChildren (f : JsVal → SDState → Json × SDState) (o : JsObj) (st : SDState) :
    Json × SDState :=
  match o with
  | .arr items =>
      let q := statefulMap f items st
      (.arr q.1, q.2)
  | .plain fields =>
      let q := statefulMapFields f (fields.take 100) st
      if fields.length > 100 then
        (.obj (q.1 ++ [("[... more keys]", .str "[Truncated]")]), q.2)
      else (.obj q.1, q.2)
  | .jmap entries =>
      let q := statefulMapFields f (entries.take 100) st
      if entries.length > 100 then
        (.obj (q.1 ++ [("[... more entries]", .str "[Truncated]")]), q.2)
      else (.obj q.1, q.2)
  | .jset items =>
      let q := statefulMap f (items.take 100) st
      (.arr q.1, q.2)
  | .date iso => (.str iso, st)
  | .regexp source flags =>
      (.obj [("source", .str source), ("flags", .str flags)], st)
  | .exotic ctorName => (.str ("[Object " ++ ctorName ++ "]"), st)

/-- Fuel-indexed `safeStringify`.  Fuel 0 is the script's
`depth > MAX_DEPTH` check; strings longer than 1000 characters are
truncated; a seen reference returns "[Circular Reference]"; the size
accounting refuses (returning "[Size limit exceeded]") whenever adding
`JSON.stringify(value).length` would push `currentSize` over `MAX_SIZE`,
and is skipped when `JSON.stringify` throws. -/
def safeStringifyF (h : JsHeap) (MS : Nat) : Nat → JsVal → SDState → Json × SDState
  | 0, _, st => (.str "[Max depth reached]", st)
  | fuel + 1, v, st =>
    match v with
    | .jsNull => (.null, st)
    | .jsUndef => (.null, st)
    | .jsFunc => (.str "[Function]", st)
    | .jsStr s =>
        (if s.length > 1000 then .str (s.take 1000 ++ "[... truncated]") else .str s, st)
    | .jsBool b => (.bool b, st)
    | .jsNum n => (.num n, st)
    | .ref id =>
      if id ∈ st.seen then (.str "[Circular Reference]", st)
      else
        match h.stringifyLen id with
        | some len =>
            if st.size + len > MS then (.str "[Size limit exceeded]", st)
            else
              sdChildren (safeStringifyF h MS fuel) (h.objs id)
                { size := st.size + len, seen := id :: st.seen }
        | none =>
            sdChildren (safeStringifyF h MS fuel) (h.objs id)
              { size := st.size, seen := id :: st.seen }

/-- Run of `safeStringify(value, 0)` as performed by the generated script
on one recognized state container, with the request's `max_depth`. -/
def safeStringify (h : JsHeap) (max_depth : Nat) (v : JsVal) : Json × SDState :=
  safeStringifyF h MAX_SIZE_STATE_DUMP (max_depth + 1) v ⟨0, []⟩

/-- The `libraries_checked` constant of the script's response metadata. -/
def librariesChecked : List String :=
  ["zustand", "redux", "pinia", "vue2", "recoil", "mobx"]

/-- The response `metadata` object built by the generated script
(src/tools/state_dump.rs lines 351–360): `truncated` compares the final
`currentSize` against `MAX_SIZE`, and `max_depth_reached` is the literal
`false`. -/
def stateDumpMetadataJson (finalSize : Nat) (errors : List String) : Json :=
  .obj [("truncated", .bool (decide (finalSize > MAX_SIZE_STATE_DUMP))),
        ("max_depth_reached", .bool false),
        ("libraries_checked", .arr (librariesChecked.map Json.str)),
        ("serialization_errors", .arr (errors.map Json.str))]

/-! ### Concrete environments and payloads used by witnesses -/

/-- Default build/system information for concrete environments. -/
def sys0 : SysInfo :=
  { pkgVersion := "0.1.0", rustVersion := "1.77", profile := "release",
    os := "Linux", platform := "Unix", arch := "x86_64", cpuCount := 4 }

/-- Benign concrete environment: a "main" window exists, every emit
succeeds, no reply ever arrives, parsing always fails, the external
handlers return a fixed well-formed envelope. -/
def env0 : Env :=
  { windows := ["main"],
    emitOk := fun _ _ => true,
    emitErrMsg := fun _ _ => "emit failed",
    reply := fun _ => none,
    parseStr := fun _ => .error "unparsed",
    urlResult := fun _ => .ok "http://localhost/",
    navigateResult := fun _ _ => .ok (),
    external := fun _ _ => .ok { success := true, data := some .null, error := none },
    sys := sys0 }

/-- Concrete environment with an empty window registry. -/
def envNoWin : Env :=
  { env0 with windows := [] }

/-- Concrete environment whose reply topic delivers a payload that parses
to an object with a string `error` field. -/
def envRemoteErr : Env :=
  { env0 with
    reply := fun _ => some "errpayload",
    parseStr := fun s =>
      if s = "errpayload" then .ok (.obj [("error", .str "boom")]) else .error "unparsed" }

/-- Payload containing only a `window_label` field. -/
def wlObj (label : String) : Json := .obj [("window_label", .str label)]

/-- Payload containing a `window_label` and an `action` field. -/
def wlActObj (label act : String) : Json :=
  .obj [("window_label", .str label), ("action", .str act)]

/-- Default (all-fields-absent) console logs request. -/
def consoleReq0 : ConsoleLogsRequest := ⟨none, none, none, none, none⟩

/-- Concrete heap whose object 0 is a plain object holding a reference to
itself (a cyclic structure; `JSON.stringify` throws on it, hence the
`none` length oracle). -/
def cyclicHeap : JsHeap :=
  { objs := fun _ => .plain [("self", .ref 0)],
    stringifyLen := fun _ => none }

/-- Concrete heap holding the nesting `[[5]]` at object 0: object 0 is an
array holding a reference to object 1, which is an array holding the
number 5.  All stringify lengths are small. -/
def deepHeap : JsHeap :=
  { objs := fun id => if id = 0 then .arr [.ref 1] else .arr [.jsNum 5],
    stringifyLen := fun _ => some 10 }

/-! ## Theorems -/

/-- Mutual exclusivity of the response envelope: a failed envelope carries
no data, a successful envelope carries no error. -/
def envelopeExclusive (r : SocketResponse) : Prop :=
  (r.success = false → r.data = none) ∧ (r.success = true → r.error = none)

lemma console_logs_exclusive (env : Env) (payload : Json) (r : SocketResponse)
    (tr : List Action) (h : handle_get_console_logs env payload = (.ok r, tr)) :
    envelopeExclusive r := by
  unfold handle_get_console_logs at h
  dsimp only at h
  repeat' split at h
  all_goals
    rw [Prod.mk.injEq] at h
    rcases h with ⟨h1, h2⟩
    first
    | exact (Except.noConfusion h1)
    | (rcases Except.ok.inj h1 with rfl; exact ⟨by simp, by simp⟩)

lemma inject_console_exclusive (env : Env) (payload : Json) (r : SocketResponse)
    (tr : List Action) (h : handle_inject_console_capture env payload = (.ok r, tr)) :
    envelopeExclusive r := by
  unfold handle_inject_console_capture at h
  dsimp only at h
  repeat' split at h
  all_goals
    rw [Prod.mk.injEq] at h
    rcases h with ⟨h1, h2⟩
    first
    | exact (Except.noConfusion h1)
    | (rcases Except.ok.inj h1 with rfl; exact ⟨by simp, by simp⟩)

lemma get_exceptions_exclusive (env : Env) (payload : Json) (r : SocketResponse)
    (tr : List Action) (h : handle_get_exceptions env payload = (.ok r, tr)) :
    envelopeExclusive r := by
  unfold handle_get_exceptions at h
  dsimp only at h
  repeat' split at h
  all_goals
    rw [Prod.mk.injEq] at h
    rcases h with ⟨h1, h2⟩
    first
    | exact (Except.noConfusion h1)
    | (rcases Except.ok.inj h1 with rfl; exact ⟨by simp, by simp⟩)

lemma inject_error_tracker_exclusive (env : Env) (payload : Json) (r : SocketResponse)
    (tr : List Action) (h : handle_inject_error_tracker env payload = (.ok r, tr)) :
    envelopeExclusive r := by
  unfold handle_inject_error_tracker at h
  dsimp only at h
  repeat' split at h
  all_goals
    rw [Prod.mk.injEq] at h
    rcases h with ⟨h1, h2⟩
    first
    | exact (Except.noConfusion h1)
    | (rcases Except.ok.inj h1 with rfl; exact ⟨by simp, by simp⟩)

lemma clear_exceptions_exclusive (env : Env) (payload : Json) (r : SocketResponse)
    (tr : List Action) (h : handle_clear_exceptions env payload = (.ok r, tr)) :
    envelopeExclusive r := by
  unfold handle_clear_exceptions at h
  dsimp only at h
  repeat' split at h
  all_goals
    rw [Prod.mk.injEq] at h
    rcases h with ⟨h1, h2⟩
    first
    | exact (Except.noConfusion h1)
    | (rcases Except.ok.inj h1 with rfl; exact ⟨by simp, by simp⟩)

lemma network_inspector_exclusive (env : Env) (payload : Json) (r : SocketResponse)
    (tr : List Action) (h : handle_network_inspector env payload = (.ok r, tr)) :
    envelopeExclusive r := by
  unfold handle_network_inspector at h
  dsimp only at h
  repeat' split at h
  all_goals
    rw [Prod.mk.injEq] at h
    rcases h with ⟨h1, h2⟩
    first
    | exact (Except.noConfusion h1)
    | (rcases Except.ok.inj h1 with rfl; exact ⟨by simp, by simp⟩)

lemma inject_network_exclusive (env : Env) (payload : Json) (r : SocketResponse)
    (tr : List Action) (h : handle_inject_network_capture env payload = (.ok r, tr)) :
    envelopeExclusive r := by
  unfold handle_inject_network_capture at h
  dsimp only at h
  repeat' split at h
  all_goals
    rw [Prod.mk.injEq] at h
    rcases h with ⟨h1, h2⟩
    first
    | exact (Except.noConfusion h1)
    | (rcases Except.ok.inj h1 with rfl; exact ⟨by simp, by simp⟩)

lemma performance_exclusive (env : Env) (payload : Json) (r : SocketResponse)
    (tr : List Action) (h : handle_get_performance_metrics env payload = (.ok r, tr)) :
    envelopeExclusive r := by
  unfold handle_get_performance_metrics at h
  dsimp only at h
  repeat' split at h
  all_goals
    rw [Prod.mk.injEq] at h
    rcases h with ⟨h1, h2⟩
    first
    | exact (Except.noConfusion h1)
    | (rcases Except.ok.inj h1 with rfl; exact ⟨by simp, by simp⟩)

lemma state_dump_exclusive (env : Env) (payload : Json) (r : SocketResponse)
    (tr : List Action) (h : handle_state_dump env payload = (.ok r, tr)) :
    envelopeExclusive r := by
  unfold handle_state_dump at h
  dsimp only at h
  repeat' split at h
  all_goals
    rw [Prod.mk.injEq] at h
    rcases h with ⟨h1, h2⟩
    first
    | exact (Except.noConfusion h1)
    | (rcases Except.ok.inj h1 with rfl; exact ⟨by simp, by simp⟩)

lemma devtools_exclusive (env : Env) (payload : Json) (r : SocketResponse)
    (tr : List Action) (h : handle_devtools_bridge env payload = (.ok r, tr)) :
    envelopeExclusive r := by
  unfold handle_devtools_bridge at h
  dsimp only at h
  repeat' split at h
  all_goals
    rw [Prod.mk.injEq] at h
    rcases h with ⟨h1, h2⟩
    first
    | exact (Except.noConfusion h1)
    | (rcases Except.ok.inj h1 with rfl; exact ⟨by simp, by simp⟩)

lemma storage_exclusive (env : Env) (payload : Json) (r : SocketResponse)
    (tr : List Action) (h : handle_get_storage_inspector env payload = (.ok r, tr)) :
    envelopeExclusive r := by
  unfold handle_get_storage_inspector at h
  dsimp only at h
  repeat' split at h
  all_goals
    rw [Prod.mk.injEq] at h
    rcases h with ⟨h1, h2⟩
    first
    | exact (Except.noConfusion h1)
    | (rcases Except.ok.inj h1 with rfl; exact ⟨by simp, by simp⟩)

lemma hot_reload_exclusive (env : Env) (payload : Json) (r : SocketResponse)
    (tr : List Action) (h : handle_hot_reload env payload = (.ok r, tr)) :
    envelopeExclusive r := by
  unfold handle_hot_reload at h
  dsimp only at h
  repeat' split at h
  all_goals
    rw [Prod.mk.injEq] at h
    rcases h with ⟨h1, h2⟩
    first
    | exact (Except.noConfusion h1)
    | (rcases Except.ok.inj h1 with rfl; exact ⟨by simp, by simp⟩)

lemma health_check_exclusive (env : Env) (payload : Json) (r : SocketResponse)
    (tr : List Action) (h : handle_health_check env payload = (.ok r, tr)) :
    envelopeExclusive r := by
  unfold handle_health_check at h
  rw [Prod.mk.injEq] at h
  rcases h with ⟨h1, h2⟩
  rcases Except.ok.inj h1 with rfl
  exact ⟨by simp, by simp⟩

/-- C1: for every known command name and every payload, any envelope the
dispatcher returns satisfies mutual exclusivity — `success = false`
implies `data = none` and `success = true` implies `error = none`.  The
handlers whose sources are not under src/ are routed through
`Env.external` and assumed (hypothesis `hext`, from the spec's §4.1
envelope contract) to satisfy the same invariant. -/
theorem dispatch_envelope_mutual_exclusivity (env : Env) (command : String) (payload : Json)
    (hext : ∀ c p r, env.external c p = .ok r → envelopeExclusive r) :
    ∀ r tr, handle_command env command payload = (.ok r, tr) → envelopeExclusive r := by
  intro r tr h
  unfold handle_command at h
  by_cases h0 : command ∈ externalCommandNames
  · rw [if_pos h0] at h
    exact hext command payload r (congrArg Prod.fst h)
  · rw [if_neg h0] at h
    by_cases h1 : command = "hot-reload"
    · rw [if_pos h1] at h; exact hot_reload_exclusive env payload r tr h
    · rw [if_neg h1] at h
      by_cases h2 : command = "get-console-logs"
      · rw [if_pos h2] at h; exact console_logs_exclusive env payload r tr h
      · rw [if_neg h2] at h
        by_cases h3 : command = "inject-console-capture"
        · rw [if_pos h3] at h; exact inject_console_exclusive env payload r tr h
        · rw [if_neg h3] at h
          by_cases h4 : command = "network-inspector"
          · rw [if_pos h4] at h; exact network_inspector_exclusive env payload r tr h
          · rw [if_neg h4] at h
            by_cases h5 : command = "inject-network-capture"
            · rw [if_pos h5] at h; exact inject_network_exclusive env payload r tr h
            · rw [if_neg h5] at h
              by_cases h6 : command = "state-dump"
              · rw [if_pos h6] at h; exact state_dump_exclusive env payload r tr h
              · rw [if_neg h6] at h
                by_cases h7 : command = "devtools-bridge"
                · rw [if_pos h7] at h; exact devtools_exclusive env payload r tr h
                · rw [if_neg h7] at h
                  by_cases h8 : command = "get-exceptions"
                  · rw [if_pos h8] at h; exact get_exceptions_exclusive env payload r tr h
                  · rw [if_neg h8] at h
                    by_cases h9 : command = "inject-error-tracker"
                    · rw [if_pos h9] at h; exact inject_error_tracker_exclusive env payload r tr h
                    · rw [if_neg h9] at h
                      by_cases h10 : command = "clear-exceptions"
                      · rw [if_pos h10] at h; exact clear_exceptions_exclusive env payload r tr h
                      · rw [if_neg h10] at h
                        by_cases h11 : command = "get-performance-metrics"
                        · rw [if_pos h11] at h; exact performance_exclusive env payload r tr h
                        · rw [if_neg h11] at h
                          by_cases h12 : command = "storage-inspector"
                          · rw [if_pos h12] at h; exact storage_exclusive env payload r tr h
                          · rw [if_neg h12] at h
                            by_cases h13 : command = "health-check"
                            · rw [if_pos h13] at h; exact health_check_exclusive env payload r tr h
                            · rw [if_neg h13] at h
                              rw [Prod.mk.injEq] at h
                              rcases h with ⟨h1, h2⟩
                              rcases Except.ok.inj h1 with rfl
                              exact ⟨by simp, by simp⟩

/-- Witness for C1: the theorem applied to the benign environment at the
health-check command. -/
theorem dispatch_envelope_mutual_exclusivity_witness :
    envelopeExclusive { success := true, data := some (healthCheckResponseJson env0), error := none } :=
  dispatch_envelope_mutual_exclusivity env0 "health-check" (Json.obj [])
    (fun _ _ r h => by
      cases h
      exact ⟨by simp, by simp⟩)
    _ [] rfl

/-! ### Window resolution lemmas (shared helpers) -/

lemma console_logs_window_not_found (env : Env) (label : String) (h : label ∉ env.windows) :
    handle_get_console_logs env (wlObj label) = (.error (.windowNotFound label), []) := by
  have hd : decodeConsoleLogsRequest (wlObj label) =
      .ok ⟨some label, none, none, none, none⟩ := rfl
  unfold handle_get_console_logs
  rw [hd]
  dsimp only [Option.getD]
  rw [if_neg h]

lemma inject_console_window_not_found (env : Env) (label : String) (h : label ∉ env.windows) :
    handle_inject_console_capture env (wlObj label) = (.error (.windowNotFound label), []) := by
  have hd : ((wlObj label).objFields >>= fun fs => optStrField fs "window_label") =
      .ok (some label) := rfl
  unfold handle_inject_console_capture
  rw [hd]
  dsimp only [Option.getD]
  rw [if_neg h]

lemma get_exceptions_window_not_found (env : Env) (label : String) (h : label ∉ env.windows) :
    handle_get_exceptions env (wlObj label) = (.error (.windowNotFound label), []) := by
  have hd : decodeErrorTrackerRequest (wlObj label) =
      .ok ⟨some label, none, none, none, none, none⟩ := rfl
  unfold handle_get_exceptions
  rw [hd]
  dsimp only [Option.getD]
  rw [if_neg h]

lemma inject_error_tracker_window_not_found (env : Env) (label : String)
    (h : label ∉ env.windows) :
    handle_inject_error_tracker env (wlObj label) = (.error (.windowNotFound label), []) := by
  have hd : (do
      let fs ← (wlObj label).objFields
      let wl ← optStrField fs "window_label"
      let cbs ← optNatField fs "circular_buffer_size"
      Except.ok (InjectErrorTrackerRequest.mk wl cbs)) =
      (.ok ⟨some label, none⟩ : Except String InjectErrorTrackerRequest) := rfl
  unfold handle_inject_error_tracker
  rw [hd]
  dsimp only [Option.getD]
  rw [if_neg h]

lemma clear_exceptions_window_not_found (env : Env) (label : String) (h : label ∉ env.windows) :
    handle_clear_exceptions env (wlObj label) = (.error (.windowNotFound label), []) := by
  have hd : ((wlObj label).objFields >>= fun fs => optStrField fs "window_label") =
      .ok (some label) := rfl
  unfold handle_clear_exceptions
  rw [hd]
  dsimp only [Option.getD]
  rw [if_neg h]

lemma network_inspector_window_not_found (env : Env) (label : String) (h : label ∉ env.windows) :
    handle_network_inspector env (wlActObj label "get_requests") =
      (.error (.windowNotFound label), []) := by
  have hd : decodeNetworkInspectorRequest (wlActObj label "get_requests") =
      .ok ⟨some label, "get_requests", none⟩ := rfl
  unfold handle_network_inspector
  rw [hd]
  dsimp only [Option.getD]
  rw [if_neg h]

lemma inject_network_window_not_found (env : Env) (label : String) (h : label ∉ env.windows) :
    handle_inject_network_capture env (wlObj label) = (.error (.windowNotFound label), []) := by
  have hd : ((wlObj label).objFields >>= fun fs => optStrField fs "window_label") =
      .ok (some label) := rfl
  unfold handle_inject_network_capture
  rw [hd]
  dsimp only [Option.getD]
  rw [if_neg h]

lemma performance_window_not_found (env : Env) (label : String) (h : label ∉ env.windows) :
    handle_get_performance_metrics env (wlObj label) = (.error (.windowNotFound label), []) := by
  have hd : decodePerformanceMetricsRequest (wlObj label) =
      .ok ⟨some label, none, none, none, none, none, none, none⟩ := rfl
  unfold handle_get_performance_metrics
  rw [hd]
  dsimp only [Option.getD]
  rw [if_neg h]

lemma state_dump_window_not_found (env : Env) (label : String) (h : label ∉ env.windows) :
    handle_state_dump env (wlObj label) = (.error (.windowNotFound label), []) := by
  have hd : decodeStateDumpRequest (wlObj label) = .ok ⟨some label, none, none, none⟩ := rfl
  unfold handle_state_dump
  rw [hd]
  dsimp only [Option.getD]
  rw [if_neg h]

lemma devtools_window_not_found (env : Env) (label : String) (h : label ∉ env.windows) :
    handle_devtools_bridge env (wlObj label) = (.error (.windowNotFound label), []) := by
  have hd : decodeDevToolsBridgeRequest (wlObj label) = .ok ⟨some label, none, none, none⟩ := rfl
  unfold handle_devtools_bridge
  rw [hd]
  dsimp only [Option.getD]
  rw [if_neg h]

lemma storage_window_not_found (env : Env) (label : String) (h : label ∉ env.windows) :
    handle_get_storage_inspector env (wlActObj label "list_indexeddb") =
      (.error (.windowNotFound label), []) := by
  have hd : decodeStorageInspectorRequest (wlActObj label "list_indexeddb") =
      .ok ⟨some label, "list_indexeddb", none, none, none, none, none, none⟩ := rfl
  unfold handle_get_storage_inspector
  rw [hd]
  dsimp only [Option.getD]
  rw [if_neg h]
  rfl

lemma hot_reload_window_not_found (env : Env) (label : String) (h : label ∉ env.windows) :
    handle_hot_reload env (wlObj label) = (.error (.windowNotFound label), []) := by
  have hd : ((wlObj label).objFields >>= fun fs => optStrField fs "window_label") =
      .ok (some label) := rfl
  unfold handle_hot_reload
  rw [hd]
  dsimp only [Option.getD]
  rw [if_neg h]

/-! ### C5: unknown command names -/

/-- C5: for every command name outside the catalogue and every payload,
the dispatcher returns (it never propagates a failure) a `success:false`
envelope whose error message is the literal "Unknown command: " followed
by the command name — in particular the message contains the name. -/
theorem unknown_command_envelope (env : Env) (command : String) (payload : Json)
    (h : command ∉ commandNames) :
    handle_command env command payload =
      (.ok { success := false, data := none,
             error := some ("Unknown command: " ++ command) }, []) ∧
    ∃ pre, ("Unknown command: " ++ command) = pre ++ command := by
  have h0 : command ∉ externalCommandNames := by
    intro hc
    apply h
    simp only [externalCommandNames, List.mem_cons, List.not_mem_nil, or_false] at hc
    rcases hc with rfl|rfl|rfl|rfl|rfl|rfl|rfl|rfl|rfl|rfl
    all_goals decide
  have hne : ∀ s ∈ commandNames, command ≠ s := fun s hs e => h (e ▸ hs)
  constructor
  · unfold handle_command
    rw [if_neg h0,
        if_neg (hne "hot-reload" (by decide)),
        if_neg (hne "get-console-logs" (by decide)),
        if_neg (hne "inject-console-capture" (by decide)),
        if_neg (hne "network-inspector" (by decide)),
        if_neg (hne "inject-network-capture" (by decide)),
        if_neg (hne "state-dump" (by decide)),
        if_neg (hne "devtools-bridge" (by decide)),
        if_neg (hne "get-exceptions" (by decide)),
        if_neg (hne "inject-error-tracker" (by decide)),
        if_neg (hne "clear-exceptions" (by decide)),
        if_neg (hne "get-performance-metrics" (by decide)),
        if_neg (hne "storage-inspector" (by decide)),
        if_neg (hne "health-check" (by decide))]
  · exact ⟨"Unknown command: ", rfl⟩

/-- Witness for C5: the theorem applied at the unknown name "bogus". -/
theorem unknown_command_envelope_witness :
    handle_command env0 "bogus" (Json.obj []) =
      (.ok { success := false, data := none,
             error := some ("Unknown command: " ++ "bogus") }, []) :=
  (unknown_command_envelope env0 "bogus" (Json.obj []) (by decide)).1

/-! ### C4: dispatcher totality and the Error conversion boundary -/

/-- C4 counterexample: dispatching the known command "get-console-logs"
with an empty payload in an environment with no windows makes the handler
fail with window-not-found, and `handle_command` returns that `Error`
unconverted — the dispatcher's result is not an envelope, contradicting
the claim that every handler-produced Error is converted at the dispatcher
boundary. -/
theorem dispatcher_propagates_error_counterexample :
    handle_command envNoWin "get-console-logs" (Json.obj []) =
      (.error (.windowNotFound "main"), []) := rfl

/-- C4 amended: the dispatcher forwards each known command's handler
result verbatim — an `Error` returned by a handler propagates to the
dispatcher's caller (the socket server front end) instead of being
converted to an envelope at the dispatcher; only unknown command names are
folded into a `success:false` envelope by the dispatcher itself. -/
theorem dispatcher_forwards_handler_results (env : Env) (payload : Json) :
    handle_command env "get-console-logs" payload = handle_get_console_logs env payload ∧
    handle_command env "hot-reload" payload = handle_hot_reload env payload ∧
    handle_command env "storage-inspector" payload = handle_get_storage_inspector env payload ∧
    ∀ label, label ∉ env.windows →
      handle_command env "get-console-logs" (wlObj label) =
        (.error (.windowNotFound label), []) :=
  ⟨rfl, rfl, rfl, fun label h => console_logs_window_not_found env label h⟩

/-- Witness for C4: the amended theorem applied at the windowless concrete
environment and the label "ghost". -/
theorem dispatcher_forwards_handler_results_witness :
    handle_command envNoWin "hot-reload" (Json.obj []) = handle_hot_reload envNoWin (Json.obj []) ∧
    handle_command envNoWin "get-console-logs" (wlObj "ghost") =
      (.error (.windowNotFound "ghost"), []) :=
  ⟨(dispatcher_forwards_handler_results envNoWin (Json.obj [])).2.1,
   (dispatcher_forwards_handler_results envNoWin (Json.obj [])).2.2.2 "ghost" (by decide)⟩

/-! ### C7: window resolution across handlers -/

/-- C7 counterexample: the health-check handler performs no window
resolution — given a `window_label` naming no existing window (registry
empty), it still returns a `success:true` envelope rather than the
window-not-found error the claim requires of every handler. -/
theorem health_check_ignores_window_label_counterexample :
    (handle_health_check envNoWin (wlObj "ghost")).1 =
      .ok { success := true, data := some (healthCheckResponseJson envNoWin), error := none } ∧
    ¬ (handle_health_check envNoWin (wlObj "ghost")).1 = .error (.windowNotFound "ghost") :=
  ⟨rfl, fun hc => Except.noConfusion hc⟩

/-- C7 amended: every window-targeting handler present under src/ resolves
`window_label` (default "main") through the registry and fails with a
window-not-found error carrying that exact label when it is absent; the
health-check handler, whose work is a pure local computation, performs no
window resolution and returns `success:true` regardless of the label. -/
theorem window_resolution_amended (env : Env) (label : String) (h : label ∉ env.windows) :
    handle_get_console_logs env (wlObj label) = (.error (.windowNotFound label), []) ∧
    handle_inject_console_capture env (wlObj label) = (.error (.windowNotFound label), []) ∧
    handle_get_exceptions env (wlObj label) = (.error (.windowNotFound label), []) ∧
    handle_inject_error_tracker env (wlObj label) = (.error (.windowNotFound label), []) ∧
    handle_clear_exceptions env (wlObj label) = (.error (.windowNotFound label), []) ∧
    handle_network_inspector env (wlActObj label "get_requests") =
      (.error (.windowNotFound label), []) ∧
    handle_inject_network_capture env (wlObj label) = (.error (.windowNotFound label), []) ∧
    handle_get_performance_metrics env (wlObj label) = (.error (.windowNotFound label), []) ∧
    handle_state_dump env (wlObj label) = (.error (.windowNotFound label), []) ∧
    handle_devtools_bridge env (wlObj label) = (.error (.windowNotFound label), []) ∧
    handle_get_storage_inspector env (wlActObj label "list_indexeddb") =
      (.error (.windowNotFound label), []) ∧
    handle_hot_reload env (wlObj label) = (.error (.windowNotFound label), []) ∧
    (handle_health_check env (wlObj label)).1 =
      .ok { success := true, data := some (healthCheckResponseJson env), error := none } :=
  ⟨console_logs_window_not_found env label h,
   inject_console_window_not_found env label h,
   get_exceptions_window_not_found env label h,
   inject_error_tracker_window_not_found env label h,
   clear_exceptions_window_not_found env label h,
   network_inspector_window_not_found env label h,
   inject_network_window_not_found env label h,
   performance_window_not_found env label h,
   state_dump_window_not_found env label h,
   devtools_window_not_found env label h,
   storage_window_not_found env label h,
   hot_reload_window_not_found env label h,
   rfl⟩

/-- Witness for C7: the amended theorem applied at the windowless concrete
environment and the label "ghost". -/
theorem window_resolution_amended_witness :
    handle_state_dump envNoWin (wlObj "ghost") = (.error (.windowNotFound "ghost"), []) :=
  (window_resolution_amended envNoWin "ghost" (by decide)).2.2.2.2.2.2.2.2.1

/-! ### C2: ordering of publish and subscription registration -/

/-- C2 counterexample: in the console-logs retrieval (benign environment,
default request) the bridge trace is publish first, one-shot subscription
second — the task is published while no subscription exists, contradicting
the claimed register-before-or-atomically-with-publish ordering. -/
theorem publish_before_subscribe_counterexample :
    (retrieve_console_logs env0 consoleReq0).2 =
      [.publish "main" "get-console-logs",
       .subscribeOnce "get-console-logs-response",
       .awaitReply "get-console-logs-response" 10000] ∧
    eachPublishPreceded (retrieve_console_logs env0 consoleReq0).2 = false :=
  ⟨rfl, rfl⟩

/-- C2 amended: every bridge-backed retrieval publishes its task to the
execution context first and registers the one-shot reply subscription only
afterwards (send-then-listen): whenever the call performs any bridge
action, the first action is the publish, and no publish in the trace is
preceded by a subscription. -/
theorem publish_before_subscribe_amended :
    (∀ (env : Env) (request : ConsoleLogsRequest),
       headIsPublish (retrieve_console_logs env request).2 = true ∧
       eachPublishPreceded (retrieve_console_logs env request).2 = false) ∧
    (∀ (env : Env) (request : ErrorTrackerRequest),
       headIsPublish (retrieve_exceptions env request).2 = true ∧
       eachPublishPreceded (retrieve_exceptions env request).2 = false) ∧
    (∀ (env : Env) (request : NetworkInspectorRequest),
       headIsPublish (retrieve_network_requests env request).2 = true ∧
       eachPublishPreceded (retrieve_network_requests env request).2 = false) ∧
    (∀ (env : Env) (params : StorageInspectorRequest),
       headIsPublish (perform_storage_inspector_operation env params).2 = true ∧
       eachPublishPreceded (perform_storage_inspector_operation env params).2 = false) ∧
    (∀ (env : Env) (payload : Json),
       (handle_get_performance_metrics env payload).2 = [] ∨
       (headIsPublish (handle_get_performance_metrics env payload).2 = true ∧
        eachPublishPreceded (handle_get_performance_metrics env payload).2 = false)) ∧
    (∀ (env : Env) (payload : Json),
       (handle_state_dump env payload).2 = [] ∨
       (headIsPublish (handle_state_dump env payload).2 = true ∧
        eachPublishPreceded (handle_state_dump env payload).2 = false)) ∧
    (∀ (env : Env) (payload : Json),
       (handle_devtools_bridge env payload).2 = [] ∨
       (headIsPublish (handle_devtools_bridge env payload).2 = true ∧
        eachPublishPreceded (handle_devtools_bridge env payload).2 = false)) := by
  refine ⟨?_, ?_, ?_, ?_, ?_, ?_, ?_⟩
  · intro env request
    unfold retrieve_console_logs
    dsimp only
    repeat' split
    all_goals exact ⟨rfl, rfl⟩
  · intro env request
    unfold retrieve_exceptions
    dsimp only
    repeat' split
    all_goals exact ⟨rfl, rfl⟩
  · intro env request
    unfold retrieve_network_requests
    dsimp only
    repeat' split
    all_goals exact ⟨rfl, rfl⟩
  · intro env params
    unfold perform_storage_inspector_operation
    dsimp only
    repeat' split
    all_goals exact ⟨rfl, rfl⟩
  · intro env payload
    unfold handle_get_performance_metrics
    dsimp only
    repeat' split
    all_goals first
      | exact Or.inl rfl
      | exact Or.inr ⟨rfl, rfl⟩
  · intro env payload
    unfold handle_state_dump
    dsimp only
    repeat' split
    all_goals first
      | exact Or.inl rfl
      | exact Or.inr ⟨rfl, rfl⟩
  · intro env payload
    unfold handle_devtools_bridge
    dsimp only
    repeat' split
    all_goals first
      | exact Or.inl rfl
      | exact Or.inr ⟨rfl, rfl⟩

/-! ### C3: fate of the one-shot subscription after a timeout -/

/-- C3 counterexample: a console-logs retrieval that times out (call A)
performs no unlisten — its trace contains the subscription registration
but no deregistration — so its one-shot listener stays in the listener
table; after a later call B registers on the same reply topic, the next
event on that topic fires both listener 0 (A's stale one, which consumes
the reply) and listener 1 (B, which receives a delivery it cannot
distinguish from its own reply).  This contradicts both halves of the
claim: the subscription is not unregistered at the deadline, and a reply
arriving after the timeout is consumed by (and satisfies) a later call on
the same topic. -/
theorem stale_subscription_counterexample :
    (retrieve_console_logs env0 consoleReq0).1 =
      .error (.timeoutError ("Timeout waiting for console logs response: " ++ recvTimeoutMsg)) ∧
    hasUnlisten (retrieve_console_logs env0 consoleReq0).2 = false ∧
    ((Hub.mk [] 0).once "get-console-logs-response").1.listeners =
      [(0, "get-console-logs-response")] ∧
    ((((Hub.mk [] 0).once "get-console-logs-response").1.once
        "get-console-logs-response").1.emitEvent "get-console-logs-response").2 = [0, 1] :=
  ⟨rfl, rfl, rfl, rfl⟩

/-- C3 amended: the deadline elapsing does not unregister the one-shot
reply subscription: no bridge-backed retrieval ever performs an unlisten
(on any path), a call whose reply topic stays silent returns the timeout
error while leaving its listener registered, and a listener registered by
`once` — never deregistered — fires on the next event on its topic even
after a later call has registered its own listener there (so a late reply
is delivered both to the stale listener and to the later call). -/
theorem timeout_keeps_subscription_amended (env : Env) :
    (∀ request : ConsoleLogsRequest,
       hasUnlisten (retrieve_console_logs env request).2 = false) ∧
    (∀ request : ConsoleLogsRequest,
       env.emitOk (request.window_label.getD "main") "get-console-logs" = true →
       env.reply "get-console-logs-response" = none →
       (retrieve_console_logs env request).1 =
         .error (.timeoutError ("Timeout waiting for console logs response: " ++ recvTimeoutMsg))) ∧
    (∀ request : ErrorTrackerRequest,
       hasUnlisten (retrieve_exceptions env request).2 = false) ∧
    (∀ request : ErrorTrackerRequest,
       env.emitOk (request.window_label.getD "main") "get-exceptions" = true →
       env.reply "get-exceptions-response" = none →
       (retrieve_exceptions env request).1 =
         .error (.timeoutError ("Timeout waiting for error tracker response: " ++ recvTimeoutMsg))) ∧
    (∀ request : NetworkInspectorRequest,
       hasUnlisten (retrieve_network_requests env request).2 = false) ∧
    (∀ request : NetworkInspectorRequest,
       env.emitOk (request.window_label.getD "main") "get-network-requests" = true →
       env.reply "get-network-requests-response" = none →
       (retrieve_network_requests env request).1 =
         .error (.timeoutError ("Timeout waiting for network inspector response: " ++ recvTimeoutMsg))) ∧
    (∀ params : StorageInspectorRequest,
       hasUnlisten (perform_storage_inspector_operation env params).2 = false) ∧
    (∀ params : StorageInspectorRequest,
       env.emitOk (params.window_label.getD "main") "inspect-storage" = true →
       env.reply "inspect-storage-response" = none →
       (perform_storage_inspector_operation env params).1 =
         .error (.timeout ("Timeout waiting for storage inspector response: " ++ recvTimeoutMsg))) ∧
    (∀ (hub : Hub) (t : String),
       (((hub.once t).1.once t).1.emitEvent t).2.contains (hub.once t).2 = true ∧
       (((hub.once t).1.once t).1.emitEvent t).2.contains ((hub.once t).1.once t).2 = true) := by
  refine ⟨?_, ?_, ?_, ?_, ?_, ?_, ?_, ?_, ?_⟩
  · intro request
    unfold retrieve_console_logs
    dsimp only
    repeat' split
    all_goals rfl
  · intro request hemit hreply
    unfold retrieve_console_logs
    dsimp only
    rw [hemit, hreply]
    simp
  · intro request
    unfold retrieve_exceptions
    dsimp only
    repeat' split
    all_goals rfl
  · intro request hemit hreply
    unfold retrieve_exceptions
    dsimp only
    rw [hemit, hreply]
    simp
  · intro request
    unfold retrieve_network_requests
    dsimp only
    repeat' split
    all_goals rfl
  · intro request hemit hreply
    unfold retrieve_network_requests
    dsimp only
    rw [hemit, hreply]
    simp
  · intro params
    unfold perform_storage_inspector_operation
    dsimp only
    repeat' split
    all_goals rfl
  · intro params hemit hreply
    unfold perform_storage_inspector_operation
    dsimp only
    rw [hemit, hreply]
    simp
  · intro hub t
    unfold Hub.once Hub.emitEvent
    dsimp only
    constructor <;> simp [List.filter_append]

/-- Witness for C3: the amended theorem applied at the benign environment
(whose reply topics stay silent) and the default console request. -/
theorem timeout_keeps_subscription_amended_witness :
    (retrieve_console_logs env0 consoleReq0).1 =
      .error (.timeoutError ("Timeout waiting for console logs response: " ++ recvTimeoutMsg)) :=
  (timeout_keeps_subscription_amended env0).2.1 consoleReq0 rfl rfl

/-! ### C8: per-command deadlines -/

lemma retrieve_console_logs_trace (env : Env) (request : ConsoleLogsRequest)
    (hemit : env.emitOk (request.window_label.getD "main") "get-console-logs" = true) :
    (retrieve_console_logs env request).2 =
      [.publish (request.window_label.getD "main") "get-console-logs",
       .subscribeOnce "get-console-logs-response",
       .awaitReply "get-console-logs-response" 10000] := by
  unfold retrieve_console_logs
  dsimp only
  rw [hemit]
  repeat' split
  all_goals first | rfl | simp_all

lemma retrieve_exceptions_trace (env : Env) (request : ErrorTrackerRequest)
    (hemit : env.emitOk (request.window_label.getD "main") "get-exceptions" = true) :
    (retrieve_exceptions env request).2 =
      [.publish (request.window_label.getD "main") "get-exceptions",
       .subscribeOnce "get-exceptions-response",
       .awaitReply "get-exceptions-response" 10000] := by
  unfold retrieve_exceptions
  dsimp only
  rw [hemit]
  repeat' split
  all_goals first | rfl | simp_all

lemma retrieve_network_requests_trace (env : Env) (request : NetworkInspectorRequest)
    (hemit : env.emitOk (request.window_label.getD "main") "get-network-requests" = true) :
    (retrieve_network_requests env request).2 =
      [.publish (request.window_label.getD "main") "get-network-requests",
       .subscribeOnce "get-network-requests-response",
       .awaitReply "get-network-requests-response" 15000] := by
  unfold retrieve_network_requests
  dsimp only
  rw [hemit]
  repeat' split
  all_goals first | rfl | simp_all

lemma storage_operation_trace (env : Env) (params : StorageInspectorRequest)
    (hemit : env.emitOk (params.window_label.getD "main") "inspect-storage" = true) :
    (perform_storage_inspector_operation env params).2 =
      [.publish (params.window_label.getD "main") "inspect-storage",
       .subscribeOnce "inspect-storage-response",
       .awaitReply "inspect-storage-response" 10000] := by
  unfold perform_storage_inspector_operation
  dsimp only
  rw [hemit]
  repeat' split
  all_goals first | rfl | simp_all

lemma performance_trace (env : Env) (payload : Json) (request : PerformanceMetricsRequest)
    (hd : decodePerformanceMetricsRequest payload = .ok request)
    (hwin : request.window_label.getD "main" ∈ env.windows)
    (hemit : env.emitOk (request.window_label.getD "main") "execute-js" = true) :
    (handle_get_performance_metrics env payload).2 =
      [.publish (request.window_label.getD "main") "execute-js",
       .subscribeOnce "execute-js-response",
       .awaitReply "execute-js-response" (request.timeout_ms.getD 10000)] := by
  unfold handle_get_performance_metrics
  rw [hd]
  dsimp only
  rw [if_pos hwin, hemit]
  repeat' split
  all_goals first | rfl | simp_all

lemma state_dump_trace (env : Env) (payload : Json) (request : StateDumpRequest)
    (hd : decodeStateDumpRequest payload = .ok request)
    (hwin : request.window_label.getD "main" ∈ env.windows)
    (hemit : env.emitOk (request.window_label.getD "main") "execute-js" = true) :
    (handle_state_dump env payload).2 =
      [.publish (request.window_label.getD "main") "execute-js",
       .subscribeOnce "execute-js-response",
       .awaitReply "execute-js-response" (request.timeout_ms.getD 5000)] := by
  unfold handle_state_dump
  rw [hd]
  dsimp only
  rw [if_pos hwin, hemit]
  repeat' split
  all_goals first | rfl | simp_all

lemma devtools_trace (env : Env) (payload : Json) (request : DevToolsBridgeRequest)
    (hd : decodeDevToolsBridgeRequest payload = .ok request)
    (hwin : request.window_label.getD "main" ∈ env.windows)
    (hemit : env.emitOk (request.window_label.getD "main") "execute-js" = true) :
    (handle_devtools_bridge env payload).2 =
      [.publish (request.window_label.getD "main") "execute-js",
       .subscribeOnce "execute-js-response",
       .awaitReply "execute-js-response" (request.timeout_ms.getD 5000)] := by
  unfold handle_devtools_bridge
  rw [hd]
  dsimp only
  rw [if_pos hwin, hemit]
  repeat' split
  all_goals first | rfl | simp_all

/-- C8 counterexample: when the client supplies no `timeout_ms`, the
performance-metrics handler blocks with a 10000 ms deadline, not the 5
seconds the claim assigns to script-execution-style commands. -/
theorem performance_default_timeout_counterexample :
    (handle_get_performance_metrics env0 (Json.obj [])).2 =
      [.publish "main" "execute-js", .subscribeOnce "execute-js-response",
       .awaitReply "execute-js-response" 10000] ∧
    firstAwaitMs (handle_get_performance_metrics env0 (Json.obj [])).2 = some 10000 ∧
    (10000 : Nat) ≠ 5000 :=
  ⟨rfl, rfl, by decide⟩

/-- C8 amended: absent a client-supplied `timeout_ms`, the deadlines are
5 seconds for state-dump and devtools-bridge, 10 seconds for
get-performance-metrics (not 5) and for log/exception/storage retrieval
(which accept no `timeout_ms`), and 15 seconds for network capture
retrieval; where `timeout_ms` is supported (performance, state-dump,
devtools-bridge) the supplied value replaces the default. -/
theorem default_timeouts_amended (env : Env) :
    (∀ request : ConsoleLogsRequest,
       env.emitOk (request.window_label.getD "main") "get-console-logs" = true →
       firstAwaitMs (retrieve_console_logs env request).2 = some 10000) ∧
    (∀ request : ErrorTrackerRequest,
       env.emitOk (request.window_label.getD "main") "get-exceptions" = true →
       firstAwaitMs (retrieve_exceptions env request).2 = some 10000) ∧
    (∀ params : StorageInspectorRequest,
       env.emitOk (params.window_label.getD "main") "inspect-storage" = true →
       firstAwaitMs (perform_storage_inspector_operation env params).2 = some 10000) ∧
    (∀ request : NetworkInspectorRequest,
       env.emitOk (request.window_label.getD "main") "get-network-requests" = true →
       firstAwaitMs (retrieve_network_requests env request).2 = some 15000) ∧
    (∀ (payload : Json) (request : PerformanceMetricsRequest),
       decodePerformanceMetricsRequest payload = .ok request →
       request.window_label.getD "main" ∈ env.windows →
       env.emitOk (request.window_label.getD "main") "execute-js" = true →
       firstAwaitMs (handle_get_performance_metrics env payload).2 =
         some (request.timeout_ms.getD 10000)) ∧
    (∀ (payload : Json) (request : StateDumpRequest),
       decodeStateDumpRequest payload = .ok request →
       request.window_label.getD "main" ∈ env.windows →
       env.emitOk (request.window_label.getD "main") "execute-js" = true →
       firstAwaitMs (handle_state_dump env payload).2 =
         some (request.timeout_ms.getD 5000)) ∧
    (∀ (payload : Json) (request : DevToolsBridgeRequest),
       decodeDevToolsBridgeRequest payload = .ok request →
       request.window_label.getD "main" ∈ env.windows →
       env.emitOk (request.window_label.getD "main") "execute-js" = true →
       firstAwaitMs (handle_devtools_bridge env payload).2 =
         some (request.timeout_ms.getD 5000)) :=
  ⟨fun request hemit => by rw [retrieve_console_logs_trace env request hemit]; rfl,
   fun request hemit => by rw [retrieve_exceptions_trace env request hemit]; rfl,
   fun params hemit => by rw [storage_operation_trace env params hemit]; rfl,
   fun request hemit => by rw [retrieve_network_requests_trace env request hemit]; rfl,
   fun payload request hd hwin hemit => by
     rw [performance_trace env payload request hd hwin hemit]; rfl,
   fun payload request hd hwin hemit => by
     rw [state_dump_trace env payload request hd hwin hemit]; rfl,
   fun payload request hd hwin hemit => by
     rw [devtools_trace env payload request hd hwin hemit]; rfl⟩

/-- Witness for C8: the amended theorem applied at the benign environment:
a state-dump call with no `timeout_ms` waits 5000 ms. -/
theorem default_timeouts_amended_witness :
    firstAwaitMs (handle_state_dump env0 (Json.obj [])).2 = some 5000 :=
  (default_timeouts_amended env0).2.2.2.2.2.1 (Json.obj []) ⟨none, none, none, none⟩
    rfl (by decide) rfl

/-! ### C10: notify-only network inspector actions -/

/-- C10: for a network-inspector payload whose action is `clear_requests`,
`start_capture` or `stop_capture`, when the target window exists and the
notification emit succeeds, the handler returns `success:true` with the
fixed synthesized response — empty request list, `total_count` 0,
`returned_count` 0, `capture_active` true for `clear_requests` and
`start_capture` and false for `stop_capture` — and its whole bridge trace
is the single notification publish: no reply subscription, no waiting. -/
theorem network_notify_actions_synthesized (env : Env) (payload : Json)
    (request : NetworkInspectorRequest)
    (hd : decodeNetworkInspectorRequest payload = .ok request)
    (hwin : request.window_label.getD "main" ∈ env.windows) :
    (request.action = "clear_requests" →
       env.emitOk (request.window_label.getD "main") "clear-network-requests" = true →
       handle_network_inspector env payload =
         (.ok { success := true,
                data := some (.obj [("requests", .arr []), ("total_count", .num 0),
                                    ("returned_count", .num 0), ("capture_active", .bool true)]),
                error := none },
          [.publish (request.window_label.getD "main") "clear-network-requests"])) ∧
    (request.action = "start_capture" →
       env.emitOk (request.window_label.getD "main") "start-network-capture" = true →
       handle_network_inspector env payload =
         (.ok { success := true,
                data := some (.obj [("requests", .arr []), ("total_count", .num 0),
                                    ("returned_count", .num 0), ("capture_active", .bool true)]),
                error := none },
          [.publish (request.window_label.getD "main") "start-network-capture"])) ∧
    (request.action = "stop_capture" →
       env.emitOk (request.window_label.getD "main") "stop-network-capture" = true →
       handle_network_inspector env payload =
         (.ok { success := true,
                data := some (.obj [("requests", .arr []), ("total_count", .num 0),
                                    ("returned_count", .num 0), ("capture_active", .bool false)]),
                error := none },
          [.publish (request.window_label.getD "main") "stop-network-capture"])) := by
  refine ⟨?_, ?_, ?_⟩
  all_goals
    intro hact hemit
    unfold handle_network_inspector
    rw [hd]
    dsimp only
    rw [if_pos hwin, hact]
    try dsimp only
    unfold clear_network_requests start_network_capture stop_network_capture
    try dsimp only
    rw [hemit]
    simp
    rfl

/-- Witness for C10: the theorem applied at the benign environment with a
concrete `clear_requests` payload. -/
theorem network_notify_actions_synthesized_witness :
    handle_network_inspector env0 (wlActObj "main" "clear_requests") =
      (.ok { success := true,
             data := some (.obj [("requests", .arr []), ("total_count", .num 0),
                                 ("returned_count", .num 0), ("capture_active", .bool true)]),
             error := none },
       [.publish "main" "clear-network-requests"]) :=
  (network_notify_actions_synthesized env0 (wlActObj "main" "clear_requests")
      ⟨some "main", "clear_requests", none⟩ rfl (by decide)).1 rfl rfl

/-! ### C6: remote application-level errors fold into `success:false` -/

lemma retrieve_console_logs_remote_error (env : Env) (request : ConsoleLogsRequest)
    (s : String) (j : Json) (msg : String)
    (hemit : env.emitOk (request.window_label.getD "main") "get-console-logs" = true)
    (hreply : env.reply "get-console-logs-response" = some s)
    (hparse : env.parseStr s = .ok j)
    (herr : j.get "error" = some (.str msg)) :
    retrieve_console_logs env request =
      (.error (.webviewOperation msg),
       [.publish (request.window_label.getD "main") "get-console-logs",
        .subscribeOnce "get-console-logs-response",
        .awaitReply "get-console-logs-response" 10000]) := by
  unfold retrieve_console_logs
  dsimp only
  rw [hemit, hreply]
  dsimp only
  rw [hparse]
  dsimp only
  rw [herr]
  simp

lemma retrieve_exceptions_remote_error (env : Env) (request : ErrorTrackerRequest)
    (s : String) (j : Json) (msg : String)
    (hemit : env.emitOk (request.window_label.getD "main") "get-exceptions" = true)
    (hreply : env.reply "get-exceptions-response" = some s)
    (hparse : env.parseStr s = .ok j)
    (herr : j.get "error" = some (.str msg)) :
    retrieve_exceptions env request =
      (.error (.webviewOperation msg),
       [.publish (request.window_label.getD "main") "get-exceptions",
        .subscribeOnce "get-exceptions-response",
        .awaitReply "get-exceptions-response" 10000]) := by
  unfold retrieve_exceptions
  dsimp only
  rw [hemit, hreply]
  dsimp only
  rw [hparse]
  dsimp only
  rw [herr]
  simp

lemma retrieve_network_requests_remote_error (env : Env) (request : NetworkInspectorRequest)
    (s : String) (j : Json) (msg : String)
    (hemit : env.emitOk (request.window_label.getD "main") "get-network-requests" = true)
    (hreply : env.reply "get-network-requests-response" = some s)
    (hparse : env.parseStr s = .ok j)
    (herr : j.get "error" = some (.str msg)) :
    retrieve_network_requests env request =
      (.error (.webviewOperation msg),
       [.publish (request.window_label.getD "main") "get-network-requests",
        .subscribeOnce "get-network-requests-response",
        .awaitReply "get-network-requests-response" 15000]) := by
  unfold retrieve_network_requests
  dsimp only
  rw [hemit, hreply]
  dsimp only
  rw [hparse]
  dsimp only
  rw [herr]
  simp

lemma storage_operation_remote_error (env : Env) (params : StorageInspectorRequest)
    (s : String) (j : Json) (msg : String)
    (hemit : env.emitOk (params.window_label.getD "main") "inspect-storage" = true)
    (hreply : env.reply "inspect-storage-response" = some s)
    (hparse : env.parseStr s = .ok j)
    (herr : j.get "error" = some (.str msg)) :
    perform_storage_inspector_operation env params =
      (.error (.javaScriptError msg),
       [.publish (params.window_label.getD "main") "inspect-storage",
        .subscribeOnce "inspect-storage-response",
        .awaitReply "inspect-storage-response" 10000]) := by
  unfold perform_storage_inspector_operation
  dsimp only
  rw [hemit, hreply]
  dsimp only
  rw [hparse]
  dsimp only
  rw [herr]
  simp

/-- C6: whenever a bridge-backed call's reply arrives within the deadline
and carries a string-valued application-level `error` field, the handler
returns `Ok` with a `success:false` envelope carrying the remote error
message — the remote error is never propagated as a process-level
`Error`. -/
theorem remote_error_folds_to_envelope (env : Env) :
    (∀ (payload : Json) (request : ConsoleLogsRequest) (s : String) (j : Json) (msg : String),
       decodeConsoleLogsRequest payload = .ok request →
       request.window_label.getD "main" ∈ env.windows →
       env.emitOk (request.window_label.getD "main") "get-console-logs" = true →
       env.reply "get-console-logs-response" = some s →
       env.parseStr s = .ok j →
       j.get "error" = some (.str msg) →
       (handle_get_console_logs env payload).1 =
         .ok { success := false, data := none,
               error := some ("Console operation error: " ++ msg) }) ∧
    (∀ (payload : Json) (request : ErrorTrackerRequest) (s : String) (j : Json) (msg : String),
       decodeErrorTrackerRequest payload = .ok request →
       request.window_label.getD "main" ∈ env.windows →
       env.emitOk (request.window_label.getD "main") "get-exceptions" = true →
       env.reply "get-exceptions-response" = some s →
       env.parseStr s = .ok j →
       j.get "error" = some (.str msg) →
       (handle_get_exceptions env payload).1 =
         .ok { success := false, data := none,
               error := some ("Error tracking operation error: " ++ msg) }) ∧
    (∀ (payload : Json) (request : NetworkInspectorRequest) (s : String) (j : Json) (msg : String),
       decodeNetworkInspectorRequest payload = .ok request →
       request.action = "get_requests" →
       request.window_label.getD "main" ∈ env.windows →
       env.emitOk (request.window_label.getD "main") "get-network-requests" = true →
       env.reply "get-network-requests-response" = some s →
       env.parseStr s = .ok j →
       j.get "error" = some (.str msg) →
       (handle_network_inspector env payload).1 =
         .ok { success := false, data := none,
               error := some ("Network operation error: " ++ msg) }) ∧
    (∀ (payload : Json) (params : StorageInspectorRequest) (s : String) (j : Json) (msg : String),
       decodeStorageInspectorRequest payload = .ok params →
       storageValidationError params = none →
       params.window_label.getD "main" ∈ env.windows →
       env.emitOk (params.window_label.getD "main") "inspect-storage" = true →
       env.reply "inspect-storage-response" = some s →
       env.parseStr s = .ok j →
       j.get "error" = some (.str msg) →
       (handle_get_storage_inspector env payload).1 =
         .ok { success := false, data := none,
               error := some ("JavaScript error: " ++ msg) }) ∧
    (∀ (payload : Json) (request : PerformanceMetricsRequest) (s : String) (j : Json) (msg : String),
       decodePerformanceMetricsRequest payload = .ok request →
       request.window_label.getD "main" ∈ env.windows →
       env.emitOk (request.window_label.getD "main") "execute-js" = true →
       env.reply "execute-js-response" = some s →
       env.parseStr s = .ok j →
       j.get "error" = some (.str msg) →
       (handle_get_performance_metrics env payload).1 =
         .ok { success := false, data := none, error := some msg }) ∧
    (∀ (payload : Json) (request : StateDumpRequest) (s : String) (j : Json) (msg : String),
       decodeStateDumpRequest payload = .ok request →
       request.window_label.getD "main" ∈ env.windows →
       env.emitOk (request.window_label.getD "main") "execute-js" = true →
       env.reply "execute-js-response" = some s →
       env.parseStr s = .ok j →
       j.get "error" = some (.str msg) →
       (handle_state_dump env payload).1 =
         .ok { success := false, data := none, error := some msg }) ∧
    (∀ (payload : Json) (request : DevToolsBridgeRequest) (s : String) (j : Json) (msg : String),
       decodeDevToolsBridgeRequest payload = .ok request →
       request.window_label.getD "main" ∈ env.windows →
       env.emitOk (request.window_label.getD "main") "execute-js" = true →
       env.reply "execute-js-response" = some s →
       env.parseStr s = .ok j →
       j.get "error" = some (.str msg) →
       (handle_devtools_bridge env payload).1 =
         .ok { success := false, data := none, error := some msg }) := by
  refine ⟨?_, ?_, ?_, ?_, ?_, ?_, ?_⟩
  · intro payload request s j msg hd hwin hemit hreply hparse herr
    unfold handle_get_console_logs
    rw [hd]
    dsimp only
    rw [if_pos hwin,
        retrieve_console_logs_remote_error env request s j msg hemit hreply hparse herr]
    rfl
  · intro payload request s j msg hd hwin hemit hreply hparse herr
    unfold handle_get_exceptions
    rw [hd]
    dsimp only
    rw [if_pos hwin,
        retrieve_exceptions_remote_error env request s j msg hemit hreply hparse herr]
    rfl
  · intro payload request s j msg hd hact hwin hemit hreply hparse herr
    unfold handle_network_inspector
    rw [hd]
    dsimp only
    rw [if_pos hwin, hact]
    try dsimp only
    rw [retrieve_network_requests_remote_error env request s j msg hemit hreply hparse herr]
    rfl
  · intro payload params s j msg hd hval hwin hemit hreply hparse herr
    unfold handle_get_storage_inspector
    rw [hd]
    dsimp only
    rw [hval]
    dsimp only
    rw [if_pos hwin,
        storage_operation_remote_error env params s j msg hemit hreply hparse herr]
    rfl
  · intro payload request s j msg hd hwin hemit hreply hparse herr
    unfold handle_get_performance_metrics
    rw [hd]
    dsimp only
    rw [if_pos hwin, hemit, hreply]
    dsimp only
    rw [hparse]
    dsimp only
    rw [herr]
    simp
  · intro payload request s j msg hd hwin hemit hreply hparse herr
    unfold handle_state_dump
    rw [hd]
    dsimp only
    rw [if_pos hwin, hemit, hreply]
    dsimp only
    rw [hparse]
    dsimp only
    rw [herr]
    simp
  · intro payload request s j msg hd hwin hemit hreply hparse herr
    unfold handle_devtools_bridge
    rw [hd]
    dsimp only
    rw [if_pos hwin, hemit, hreply]
    dsimp only
    rw [hparse]
    dsimp only
    rw [herr]
    simp

/-- Witness for C6: the theorem applied at the concrete environment whose
reply parses to an object with `error` field "boom". -/
theorem remote_error_folds_to_envelope_witness :
    (handle_get_console_logs envRemoteErr (Json.obj [])).1 =
      .ok { success := false, data := none,
            error := some ("Console operation error: " ++ "boom") } :=
  (remote_error_folds_to_envelope envRemoteErr).1 (Json.obj [])
    ⟨none, none, none, none, none⟩ "errpayload" (.obj [("error", .str "boom")]) "boom"
    rfl (by decide) rfl rfl rfl rfl

/-! ### C9: caps and metadata flags of the state-dump traversal -/

lemma statefulMap_size_le (f : JsVal → SDState → Json × SDState) (B : Nat)
    (hf : ∀ v st, st.size ≤ B → (f v st).2.size ≤ B) :
    ∀ (vs : List JsVal) (st : SDState), st.size ≤ B → (statefulMap f vs st).2.size ≤ B := by
  intro vs
  induction vs with
  | nil => intro st h; exact h
  | cons v rest ih => intro st h; exact ih (f v st).2 (hf v st h)

lemma statefulMapFields_size_le (f : JsVal → SDState → Json × SDState) (B : Nat)
    (hf : ∀ v st, st.size ≤ B → (f v st).2.size ≤ B) :
    ∀ (fs : List (String × JsVal)) (st : SDState),
      st.size ≤ B → (statefulMapFields f fs st).2.size ≤ B := by
  intro fs
  induction fs with
  | nil => intro st h; exact h
  | cons kv rest ih => intro st h; exact ih (f kv.2 st).2 (hf kv.2 st h)

lemma sdChildren_size_le (f : JsVal → SDState → Json × SDState) (B : Nat) (o : JsObj)
    (hf : ∀ v st, st.size ≤ B → (f v st).2.size ≤ B) :
    ∀ st, st.size ≤ B → (sdChildren f o st).2.size ≤ B := by
  intro st h
  cases o with
  | arr items => exact statefulMap_size_le f B hf items st h
  | plain fields =>
      dsimp only [sdChildren]
      split <;> exact statefulMapFields_size_le f B hf _ st h
  | jmap entries =>
      dsimp only [sdChildren]
      split <;> exact statefulMapFields_size_le f B hf _ st h
  | jset items => exact statefulMap_size_le f B hf _ st h
  | date iso => exact h
  | regexp source flags => exact h
  | exotic ctorName => exact h

/-- The `currentSize` counter never exceeds the size cap: every increment
is guarded by `currentSize + str.length > MAX_SIZE`. -/
lemma safeStringifyF_size_le (h : JsHeap) (B : Nat) :
    ∀ (fuel : Nat) (v : JsVal) (st : SDState),
      st.size ≤ B → (safeStringifyF h B fuel v st).2.size ≤ B := by
  intro fuel
  induction fuel with
  | zero => intro v st hst; exact hst
  | succ fuel ih =>
    intro v st hst
    cases v with
    | jsNull => exact hst
    | jsUndef => exact hst
    | jsFunc => exact hst
    | jsBool b => exact hst
    | jsNum n => exact hst
    | jsStr s => exact hst
    | ref id =>
        dsimp only [safeStringifyF]
        split
        · exact hst
        · split
          case _ len heq =>
            split
            case _ => exact hst
            case _ hgt =>
              exact sdChildren_size_le _ B (h.objs id) ih _ (Nat.le_of_not_lt hgt)
          case _ heq =>
            exact sdChildren_size_le _ B (h.objs id) ih _ hst

/-- C9 counterexample: with `max_depth = 1` on the concrete nesting
`[[5]]`, the depth cap is exceeded during traversal — the inner value is
replaced inline by the "[Max depth reached]" marker — yet the response
metadata reports neither flag: `max_depth_reached` is false (it is
hard-coded) and `truncated` is false, contradicting the claim that
exceeding a cap sets the corresponding metadata flag. -/
theorem depth_cap_metadata_counterexample :
    (safeStringify deepHeap 1 (.ref 0)).1 = .arr [.arr [.str "[Max depth reached]"]] ∧
    (stateDumpMetadataJson (safeStringify deepHeap 1 (.ref 0)).2.size []).get
      "max_depth_reached" = some (.bool false) ∧
    (stateDumpMetadataJson (safeStringify deepHeap 1 (.ref 0)).2.size []).get
      "truncated" = some (.bool false) :=
  ⟨rfl, rfl, rfl⟩

/-- C9 amended: in the generated state-dump script the caps are hard
stops in the produced value — the traversal function halts at the depth
cap with an inline "[Max depth reached]" marker and terminates on cyclic
structures with an inline "[Circular Reference]" marker instead of
looping or erroring — but the response metadata never reports them: for
every heap, depth limit and root value, `metadata.max_depth_reached` is
(hard-coded) false and `metadata.truncated` is false, since the size
counter is prevented from ever exceeding `MAX_SIZE`. -/
theorem state_dump_caps_amended :
    (∀ (h : JsHeap) (md : Nat) (v : JsVal) (errors : List String),
       (stateDumpMetadataJson (safeStringify h md v).2.size errors).get
         "max_depth_reached" = some (.bool false) ∧
       (stateDumpMetadataJson (safeStringify h md v).2.size errors).get
         "truncated" = some (.bool false)) ∧
    (safeStringify cyclicHeap 10 (.ref 0)).1 =
      .obj [("self", .str "[Circular Reference]")] := by
  constructor
  · intro h md v errors
    constructor
    · rfl
    · have hsz : (safeStringify h md v).2.size ≤ MAX_SIZE_STATE_DUMP :=
        safeStringifyF_size_le h MAX_SIZE_STATE_DUMP (md + 1) v ⟨0, []⟩ (Nat.zero_le _)
      have hd : decide ((safeStringify h md v).2.size > MAX_SIZE_STATE_DUMP) = false :=
        decide_eq_false (not_lt.mpr hsz)
      calc (stateDumpMetadataJson (safeStringify h md v).2.size errors).get "truncated"
          = some (.bool (decide ((safeStringify h md v).2.size > MAX_SIZE_STATE_DUMP))) := rfl
        _ = some (.bool false) := by rw [hd]
  · rfl

end TauriMcp
